import Mathlib

/-!
Verification development for the foodloop donation backend.

The definitions below are shallow embeddings of the JavaScript source:
pure functions become Lean functions, route handlers become explicit
state-passing functions, and MongoDB documents become Lean structures.
Conventions used throughout:

* JavaScript `Date` values are modelled as integer millisecond timestamps
  (`Int`); an invalid date (`NaN` time value) is modelled as `none` in the
  type `JSDate := Option Int`.  Calendar-day arithmetic (`setDate`) is
  modelled at UTC, where adding n days is exactly `n * 86400000` ms.
* JavaScript numbers are modelled as exact rationals (`Rat`); the handlers
  under verification only use comparisons, `+`, `*`, `/` and `Math.round`,
  which are modelled exactly over `Rat`.
* `null`/`undefined`-able fields are `Option` types; JS truthiness on a
  number is `some v` with `v ≠ 0`, and on a string is `some s` with
  `s ≠ ""`.
* External collaborators (geocoder, road-routing engine, haversine
  distance) are passed in as explicit function parameters.
-/

namespace FoodLoop

/-- One JS day in milliseconds. -/
def dayMs : Int := 86400000

/-- A JS `Date` value: `some t` is a valid date with time value `t` ms,
`none` is an Invalid Date (`NaN` time value). -/
abbrev JSDate := Option Int

/-- JS truthiness of a nullable number (`null`/`undefined` and `0` are falsy). -/
def truthyQ : Option Rat → Bool
  | none => false
  | some v => decide (v ≠ 0)

/-- JS truthiness of a nullable string (`null`/`undefined` and `""` are falsy). -/
def truthyS : Option String → Bool
  | none => false
  | some s => decide (s ≠ "")

/-- JS truthiness of a (non-null) string. -/
def truthyStr (s : String) : Bool := decide (s ≠ "")

/-- Drop leading whitespace characters from a character list. -/
def dropLeadingWs : List Char → List Char
  | [] => []
  | c :: rest => if c.isWhitespace then dropLeadingWs rest else c :: rest

/-- JS `String.prototype.trim`: strip leading and trailing whitespace
(executable re-implementation over the character list). -/
def jsTrim (s : String) : String :=
  ⟨List.reverse (dropLeadingWs (List.reverse (dropLeadingWs s.data)))⟩

/-- JS `Math.round`: round half toward positive infinity. -/
def jsMathRound (x : Rat) : Int := ⌊x + 1/2⌋

/-- The service region bounding box used everywhere client coordinates are
validated: latitude in [5, 10], longitude in [79, 82] (Sri Lanka). -/
def inBounds (lat lng : Rat) : Bool :=
  decide (5 ≤ lat) && decide (lat ≤ 10) && decide (79 ≤ lng) && decide (lng ≤ 82)

/-- Donation lifecycle status (`models/Donation.js` status enum). -/
inductive Status
  | pending
  | approved
  | assigned
  | picked_up
  | delivered
  | cancelled
deriving DecidableEq, Repr

/-- Actor role carried by the authenticated request context. -/
inductive Role
  | Donor
  | Receiver
  | Driver
  | Admin
deriving DecidableEq, Repr

/-! ## Expiry computation (`services/expiryService.js`) -/

/-- Shallow embedding of `calculateExpiryDate` from `services/expiryService.js`.
Arguments mirror the fields of the `donationData` argument; `now` stands for
the `new Date()` used when `createdAt` is absent.  A `Date` argument is
truthy exactly when it is non-null (even an Invalid Date object is truthy),
hence the outer `Option JSDate`. -/
def calculateExpiryDate (productType : Option String)
    (expiryDateFromPackage userProvidedExpiryDate : Option JSDate)
    (createdAt : Option JSDate) (now : Int) : JSDate :=
  let creationDate : JSDate := createdAt.getD (some now)
  match userProvidedExpiryDate with
  | some e => e
  | none =>
    if productType = some "cooked" then
      creationDate.map (fun t => t + 2 * dayMs)
    else if productType = some "packed" then
      match expiryDateFromPackage with
      | some p => p
      | none => creationDate.map (fun t => t + 7 * dayMs)
    else
      creationDate.map (fun t => t + 3 * dayMs)

/-- The five branches of `calculateExpiryDate`, in source order. -/
inductive ExpiryBranch
  | userProvided
  | cookedTwoDays
  | packageExpiry
  | packedSevenDays
  | unknownThreeDays
deriving DecidableEq, Repr

/-- Which branch of `calculateExpiryDate` fires for the given arguments
(same control flow as `calculateExpiryDate`). -/
def calculateExpiryBranch (productType : Option String)
    (expiryDateFromPackage userProvidedExpiryDate : Option JSDate) : ExpiryBranch :=
  match userProvidedExpiryDate with
  | some _ => .userProvided
  | none =>
    if productType = some "cooked" then .cookedTwoDays
    else if productType = some "packed" then
      match expiryDateFromPackage with
      | some _ => .packageExpiry
      | none => .packedSevenDays
    else .unknownThreeDays

/-! ## Tracking-id generation (`models/Donation.js` pre-save hook and
`models/DonationTrackingSequence.js`) -/

/-- A calendar date, as extracted by `getFullYear`/`getMonth`/`getDate`. -/
structure DayDate where
  year : Nat
  month : Nat
  day : Nat
deriving DecidableEq, Repr

/-- `padStart(2, '0')` of a decimal numeral. -/
def pad2 (n : Nat) : String :=
  if n < 10 then "0" ++ toString n else toString n

/-- The `YYYYMMDD` date string built in the pre-save hook. -/
def dateStr (d : DayDate) : String :=
  toString d.year ++ pad2 d.month ++ pad2 d.day

/-- A persisted donation document as seen by the tracking-id hook: its
creation day and its assigned tracking id. -/
structure TrackedDonation where
  createdDay : DayDate
  trackingId : String
deriving DecidableEq, Repr

/-- `countDocuments({ createdAt: { $gte: startOfDay, $lt: nextDay } })`:
the number of already-persisted donations created on the given day. -/
def donationCountForDay (docs : List TrackedDonation) (d : DayDate) : Nat :=
  (docs.filter (fun x => x.createdDay = d)).length

/-- The tracking id computed by the `donationSchema.pre('save')` hook in
`models/Donation.js`: `FL-` + date string + `-` + 2-padded (count + 1).
The hook derives the sequence number from `countDocuments` over today's
donations, not from `DonationTrackingSequence`. -/
def preSaveTrackingId (docs : List TrackedDonation) (today : DayDate) : String :=
  "FL-" ++ dateStr today ++ "-" ++ pad2 (donationCountForDay docs today + 1)

/-- Persisting a new donation on `today`: the pre-save hook assigns the
count-derived tracking id and the document is appended. -/
def createTracked (docs : List TrackedDonation) (today : DayDate) : List TrackedDonation :=
  docs ++ [⟨today, preSaveTrackingId docs today⟩]

/-- `findByIdAndDelete` of the document carrying the given tracking id
(models the expiry sweep or any deletion of a same-day donation). -/
def deleteTracked (docs : List TrackedDonation) (tid : String) : List TrackedDonation :=
  docs.eraseP (fun x => x.trackingId = tid)

/-- The per-day atomic counter of `models/DonationTrackingSequence.js`
(`findOneAndUpdate` with `$inc` and upsert): the state maps a `YYYYMMDD`
key to its counter, and `getNextSequenceForDate` atomically increments and
returns it.  This module is exported but never called by the repository. -/
def getNextSequenceForDate (seqs : List (String × Nat)) (dateKey : String) :
    Nat × List (String × Nat) :=
  match seqs.lookup dateKey with
  | some s => (s + 1, seqs.map (fun p => if p.1 = dateKey then (p.1, s + 1) else p))
  | none => (1, seqs ++ [(dateKey, 1)])

/-! ## Donation documents and the lifecycle state (`models/Donation.js`,
`routes/donations.js` handlers) -/

/-- A persisted `Donation` document (`models/Donation.js`), restricted to
the fields read or written by the lifecycle, matching and impact handlers.
Advisory AI fields and the tracking id (modelled separately above) are
omitted; they never gate transitions. -/
structure Donation where
  donorId : Nat
  foodCategory : String
  itemName : String
  quantity : Rat
  storageRecommendation : String
  imageUrl : String
  preferredPickupDate : Int
  preferredPickupTimeFrom : String
  preferredPickupTimeTo : String
  actualPickupDate : Option Int
  productType : Option String
  expiryDate : Int
  expiryDateFromPackage : Option Int
  donorAddress : String
  donorEmail : String
  donorLatitude : Option Rat
  donorLongitude : Option Rat
  status : Status
  assignedDriverId : Option Nat
  assignedReceiverId : Option Nat
  receiverLatitude : Option Rat
  receiverLongitude : Option Rat
  receiverAddress : Option String
deriving DecidableEq, Repr

/-- The donation collection: document id paired with the document. -/
abbrev DB := List (Nat × Donation)

/-- `Donation.findById`: first document with the given id. -/
def findById : DB → Nat → Option Donation
  | [], _ => none
  | p :: rest, id => if p.1 = id then some p.2 else findById rest id

/-- `document.save()` on a document loaded by id: replace the first
document with that id by a new value (mongoose writes the in-memory doc). -/
def updateById : DB → Nat → Donation → DB
  | [], _, _ => []
  | p :: rest, id, d => if p.1 = id then (p.1, d) :: rest else p :: updateById rest id d

/-- The whole server state touched by the donation lifecycle. -/
structure LState where
  donations : DB
  nextId : Nat
deriving Repr

/-- A donation counts as an active order of a driver when it is assigned to
that driver with status `assigned` or `picked_up` (the accept-order
`countDocuments` filter). -/
def activeForDriver (driverId : Nat) (d : Donation) : Bool :=
  decide (d.assignedDriverId = some driverId) &&
    (decide (d.status = Status.assigned) || decide (d.status = Status.picked_up))

/-- `countDocuments({ assignedDriverId, status: { $in: [assigned, picked_up] } })`. -/
def activeCount (db : DB) (driverId : Nat) : Nat :=
  db.countP (fun p => activeForDriver driverId p.2)

/-! ### Create (`POST /api/donations`) -/

/-- The request body of `POST /api/donations`.  Raw date strings are
modelled as already classified: `none` = absent, `some none` = present but
unparseable (`new Date` gives an Invalid Date), `some (some t)` = parses to
time value `t`. -/
structure CreateReq where
  foodCategory : Option String
  itemName : Option String
  quantity : Option Rat
  storageRecommendation : Option String
  imageUrl : Option String
  preferredPickupDate : Option JSDate
  preferredPickupTimeFrom : Option String
  preferredPickupTimeTo : Option String
  productType : Option String
  expiryDateFromPackage : Option JSDate
  userProvidedExpiryDate : Option JSDate
  donorLatitude : Option Rat
  donorLongitude : Option Rat

/-- The donor profile fields read by the create handler. -/
structure DonorProfile where
  address : Option String
  email : Option String

/-- Typed rejections of the create handler, in source order. -/
inductive CreateError
  | notADonor
  | missingFields
  | invalidCategory
  | invalidStorage
  | invalidPickupDate
  | invalidQuantity
  | donorNotFound
  | noAddress
  | noEmail
  | invalidExpiryCast
deriving DecidableEq, Repr

/-- The closed food-category set. -/
def validCategories : List String :=
  ["Cooked Meals", "Raw Food", "Beverages", "Snacks", "Desserts"]

/-- The closed storage set. -/
def validStorage : List String := ["Hot", "Cold", "Dry"]

/-- The `Object.entries(requiredFields).filter(([k, v]) => !v)` check:
true when every required field is truthy. -/
def createRequiredOk (req : CreateReq) : Bool :=
  truthyS req.foodCategory && truthyS req.itemName && truthyQ req.quantity &&
    truthyS req.storageRecommendation && truthyS req.imageUrl &&
    req.preferredPickupDate.isSome && truthyS req.preferredPickupTimeFrom &&
    truthyS req.preferredPickupTimeTo

/-- `productType === 'packed' ? 'packed' : 'cooked'` from the create
handler. -/
def finalProductType (productType : Option String) : String :=
  if productType = some "packed" then "packed" else "cooked"

/-- `parsedExpiryFromPackage`: the package expiry if it parses, else the
user expiry if it parses, else null. -/
def parsedExpiryFromPackage (req : CreateReq) : Option Int :=
  match req.expiryDateFromPackage with
  | some (some t) => some t
  | _ =>
    match req.userProvidedExpiryDate with
    | some (some t) => some t
    | _ => none

/-- Final donor coordinates of the create handler: a client pair is used
only when both members are truthy and inside the service bounding box;
otherwise the handler geocodes the profile address. -/
def createFinalCoords (req : CreateReq) (address : Option String)
    (geocode : String → Option (Rat × Rat)) : Option Rat × Option Rat :=
  let confirmed :=
    match req.donorLatitude, req.donorLongitude with
    | some lat, some lng =>
      if lat ≠ 0 ∧ lng ≠ 0 ∧ inBounds lat lng = true then (some lat, some lng)
      else (none, none)
    | _, _ => (none, none)
  if ¬ truthyQ confirmed.1 ∨ ¬ truthyQ confirmed.2 then
    match address with
    | some a =>
      if truthyStr a then
        match geocode a with
        | some c => (some c.1, some c.2)
        | none => confirmed
      else confirmed
    | none => confirmed
  else confirmed

/-- Shallow embedding of `POST /api/donations` (create).  `profile` is the
`User.findById(req.user.id)` result, `geocode` the geocoding service and
`now` the handler's `new Date()`.  The final `invalidExpiryCast` branch
models the mongoose cast failure when the computed expiry is an Invalid
Date (only reachable through an unparseable user-provided expiry). -/
def createOp (st : LState) (actorRole : Role) (actorId : Nat) (req : CreateReq)
    (profile : Option DonorProfile) (geocode : String → Option (Rat × Rat))
    (now : Int) : Option CreateError × LState :=
  if actorRole ≠ Role.Donor then (some .notADonor, st)
  else if ¬ createRequiredOk req then (some .missingFields, st)
  else if ¬ validCategories.contains (req.foodCategory.getD "") then (some .invalidCategory, st)
  else if ¬ validStorage.contains (req.storageRecommendation.getD "") then (some .invalidStorage, st)
  else
    match req.preferredPickupDate with
    | some none => (some .invalidPickupDate, st)
    | none => (some .invalidPickupDate, st)
    | some (some pickupDate) =>
      if ¬ (1 ≤ req.quantity.getD 0) then (some .invalidQuantity, st)
      else
        match profile with
        | none => (some .donorNotFound, st)
        | some donor =>
          if ¬ truthyS donor.address then (some .noAddress, st)
          else if ¬ truthyS donor.email then (some .noEmail, st)
          else
            let pt := finalProductType req.productType
            let pkg := parsedExpiryFromPackage req
            let expiry :=
              calculateExpiryDate (some pt) (pkg.map some)
                (req.userProvidedExpiryDate.map id) (some (some now)) now
            match expiry with
            | none => (some .invalidExpiryCast, st)
            | some expiryDate =>
              let coords := createFinalCoords req donor.address geocode
              let d : Donation :=
                { donorId := actorId
                  foodCategory := req.foodCategory.getD ""
                  itemName := req.itemName.getD ""
                  quantity := req.quantity.getD 0
                  storageRecommendation := req.storageRecommendation.getD ""
                  imageUrl := req.imageUrl.getD ""
                  preferredPickupDate := pickupDate
                  preferredPickupTimeFrom := req.preferredPickupTimeFrom.getD ""
                  preferredPickupTimeTo := req.preferredPickupTimeTo.getD ""
                  actualPickupDate := none
                  productType := some pt
                  expiryDate := expiryDate
                  expiryDateFromPackage := pkg
                  donorAddress := donor.address.getD ""
                  donorEmail := donor.email.getD ""
                  donorLatitude := coords.1
                  donorLongitude := coords.2
                  status := Status.pending
                  assignedDriverId := none
                  assignedReceiverId := none
                  receiverLatitude := none
                  receiverLongitude := none
                  receiverAddress := none }
              (none, ⟨st.donations ++ [(st.nextId, d)], st.nextId + 1⟩)

/-! ### Claim (`POST /api/donations/:id/claim`) -/

/-- Optional receiver delivery location in the claim request body.
Latitude/longitude are `some v` when the client sent a value whose
`Number(...)` conversion is finite, `none` otherwise. -/
structure ClaimReq where
  receiverLatitude : Option Rat
  receiverLongitude : Option Rat
  receiverAddress : Option String

/-- Typed rejections of the claim handler, in source order. -/
inductive ClaimError
  | notAReceiver
  | notFound
  | alreadyClaimed
  | notAvailable
  | expired
deriving DecidableEq, Repr

/-- `typeof receiverAddress === 'string' ? receiverAddress.trim() || null : null`. -/
def normAddr (a : Option String) : Option String :=
  match a with
  | some s => if jsTrim s = "" then none else some (jsTrim s)
  | none => none

/-- The mutation the claim handler applies to the loaded document:
optionally store the receiver delivery location (only when both values are
present and inside the bounding box), then attach the receiver and move to
`assigned`. -/
def claimApply (d : Donation) (receiverId : Nat) (req : ClaimReq) : Donation :=
  let base :=
    match req.receiverLatitude, req.receiverLongitude with
    | some lat, some lng =>
      if inBounds lat lng = true then
        { d with receiverLatitude := some lat, receiverLongitude := some lng,
                 receiverAddress := normAddr req.receiverAddress }
      else d
    | _, _ => d
  { base with assignedReceiverId := some receiverId, status := Status.assigned }

/-- The guard the claim handler evaluates on the loaded document, in source
order: already claimed, not pending/approved, expired. -/
def claimGuard (d : Donation) (now : Int) : Option ClaimError :=
  if d.assignedReceiverId.isSome then some .alreadyClaimed
  else if ¬ (d.status = Status.pending ∨ d.status = Status.approved) then some .notAvailable
  else if d.expiryDate ≤ now then some .expired
  else none

/-- The write phase of the claim handler: the guard is evaluated on the
snapshot loaded earlier and, on success, `save()` writes the document built
from that snapshot (the read and the write are separate steps in the
source — there is no guard in the update filter). -/
def claimWrite (st : LState) (id : Nat) (snap : Donation) (receiverId : Nat)
    (req : ClaimReq) (now : Int) : Option ClaimError × LState :=
  match claimGuard snap now with
  | some e => (some e, st)
  | none =>
    (none, ⟨updateById st.donations id (claimApply snap receiverId req), st.nextId⟩)

/-- Shallow embedding of `POST /api/donations/:id/claim` executed without
interleaving: role check, `findById` read, then the write phase on the
document just read. -/
def claimOp (st : LState) (actorRole : Role) (actorId : Nat) (id : Nat)
    (req : ClaimReq) (now : Int) : Option ClaimError × LState :=
  if actorRole ≠ Role.Receiver then (some .notAReceiver, st)
  else
    match findById st.donations id with
    | none => (some .notFound, st)
    | some d => claimWrite st id d actorId req now

/-! ### Accept-order (`POST /api/donations/:id/accept-order`) -/

/-- Typed rejections of the accept-order handler, in source order. -/
inductive AcceptError
  | notADriver
  | notFound
  | alreadyAssigned
  | wrongStatus
  | noReceiver
  | hasActiveOrder
  | expired
deriving DecidableEq, Repr

/-- Shallow embedding of `POST /api/donations/:id/accept-order`: a driver
commits to an order.  The single-active-order rule is enforced here by
counting the driver's donations in {assigned, picked_up} before attaching. -/
def acceptOp (st : LState) (actorRole : Role) (driverId : Nat) (id : Nat)
    (now : Int) : Option AcceptError × LState :=
  if actorRole ≠ Role.Driver then (some .notADriver, st)
  else
    match findById st.donations id with
    | none => (some .notFound, st)
    | some d =>
      if d.assignedDriverId.isSome then (some .alreadyAssigned, st)
      else if d.status ≠ Status.assigned then (some .wrongStatus, st)
      else if ¬ d.assignedReceiverId.isSome then (some .noReceiver, st)
      else if 0 < activeCount st.donations driverId then (some .hasActiveOrder, st)
      else if d.expiryDate ≤ now then (some .expired, st)
      else
        (none,
          ⟨updateById st.donations id { d with assignedDriverId := some driverId },
            st.nextId⟩)

/-! ### Confirm-pickup (`POST /api/donations/:id/confirm-pickup`) -/

/-- Typed rejections of the confirm-pickup handler, in source order. -/
inductive PickupError
  | notADriver
  | notFound
  | assignedToOther
  | wrongStatus
  | noReceiver
  | expired
deriving DecidableEq, Repr

/-- Shallow embedding of `POST /api/donations/:id/confirm-pickup`.  The
backward-compatibility path attaches the acting driver when no driver is
assigned yet — without any count of the driver's active orders. -/
def pickupOp (st : LState) (actorRole : Role) (driverId : Nat) (id : Nat)
    (now : Int) : Option PickupError × LState :=
  if actorRole ≠ Role.Driver then (some .notADriver, st)
  else
    match findById st.donations id with
    | none => (some .notFound, st)
    | some d =>
      if d.assignedDriverId.isSome ∧ d.assignedDriverId ≠ some driverId then
        (some .assignedToOther, st)
      else if d.status ≠ Status.assigned then (some .wrongStatus, st)
      else if ¬ d.assignedReceiverId.isSome then (some .noReceiver, st)
      else if d.expiryDate ≤ now then (some .expired, st)
      else
        (none,
          ⟨updateById st.donations id
            { d with
              assignedDriverId :=
                if d.assignedDriverId.isNone then some driverId else d.assignedDriverId,
              status := Status.picked_up,
              actualPickupDate := some now },
            st.nextId⟩)

/-! ### Confirm-delivery (`POST /api/donations/:id/confirm-delivery`) -/

/-- Typed rejections of the confirm-delivery handler, in source order. -/
inductive DeliverError
  | notADriver
  | notFound
  | notAssignedToYou
  | wrongStatus
  | noReceiver
deriving DecidableEq, Repr

/-- Shallow embedding of `POST /api/donations/:id/confirm-delivery`. -/
def deliverOp (st : LState) (actorRole : Role) (driverId : Nat) (id : Nat) :
    Option DeliverError × LState :=
  if actorRole ≠ Role.Driver then (some .notADriver, st)
  else
    match findById st.donations id with
    | none => (some .notFound, st)
    | some d =>
      if d.assignedDriverId ≠ some driverId then (some .notAssignedToYou, st)
      else if d.status ≠ Status.picked_up then (some .wrongStatus, st)
      else if ¬ d.assignedReceiverId.isSome then (some .noReceiver, st)
      else
        (none,
          ⟨updateById st.donations id { d with status := Status.delivered }, st.nextId⟩)

/-! ### Donor edit and cancel (`PATCH /api/donations/:id`,
`DELETE /api/donations/:id`) -/

/-- The request body of `PATCH /api/donations/:id`; `none` models an absent
(`== null`) field that is left untouched. -/
structure PatchReq where
  foodCategory : Option String
  itemName : Option String
  quantity : Option Rat
  storageRecommendation : Option String
  imageUrl : Option String
  preferredPickupDate : Option Int
  preferredPickupTimeFrom : Option String
  preferredPickupTimeTo : Option String
  userProvidedExpiryDate : Option Int
  donorLatitude : Option Rat
  donorLongitude : Option Rat

/-- Typed rejections of the edit/cancel handlers, in source order. -/
inductive EditError
  | notADonor
  | notFound
  | notEditable
  | invalidCategory
  | invalidStorage
  | invalidQuantity
deriving DecidableEq, Repr

/-- The deliberate donor edit/cancel guard: `status ∈ {pending, approved}`
or (`status == assigned` and no driver attached). -/
def canEditStatus (d : Donation) : Bool :=
  decide (d.status = Status.pending) || decide (d.status = Status.approved) ||
    (decide (d.status = Status.assigned) && d.assignedDriverId.isNone)

/-- Field-level validation of the edit request (each supplied enum value
must be in its closed set, a supplied quantity must be ≥ 1). -/
def patchFieldError (req : PatchReq) : Option EditError :=
  match req.foodCategory with
  | some c => if ¬ validCategories.contains c then some .invalidCategory else
    match req.storageRecommendation with
    | some s => if ¬ validStorage.contains s then some .invalidStorage else
      match req.quantity with
      | some q => if ¬ (1 ≤ q) then some .invalidQuantity else none
      | none => none
    | none =>
      match req.quantity with
      | some q => if ¬ (1 ≤ q) then some .invalidQuantity else none
      | none => none
  | none =>
    match req.storageRecommendation with
    | some s => if ¬ validStorage.contains s then some .invalidStorage else
      match req.quantity with
      | some q => if ¬ (1 ≤ q) then some .invalidQuantity else none
      | none => none
    | none =>
      match req.quantity with
      | some q => if ¬ (1 ≤ q) then some .invalidQuantity else none
      | none => none

/-- The field mutations of the edit handler (`if (x != null) donation.x = x`;
a supplied `userProvidedExpiryDate` overwrites `expiryDate`). -/
def patchApply (d : Donation) (req : PatchReq) : Donation :=
  { d with
    foodCategory := req.foodCategory.getD d.foodCategory
    itemName := req.itemName.getD d.itemName
    quantity := req.quantity.getD d.quantity
    storageRecommendation := req.storageRecommendation.getD d.storageRecommendation
    imageUrl := req.imageUrl.getD d.imageUrl
    preferredPickupDate := req.preferredPickupDate.getD d.preferredPickupDate
    preferredPickupTimeFrom := req.preferredPickupTimeFrom.getD d.preferredPickupTimeFrom
    preferredPickupTimeTo := req.preferredPickupTimeTo.getD d.preferredPickupTimeTo
    expiryDate := req.userProvidedExpiryDate.getD d.expiryDate
    donorLatitude :=
      match req.donorLatitude with
      | some v => some v
      | none => d.donorLatitude
    donorLongitude :=
      match req.donorLongitude with
      | some v => some v
      | none => d.donorLongitude }

/-- Shallow embedding of `PATCH /api/donations/:id` (donor edit).  The
`findOne({_id, donorId})` lookup makes a donation owned by another donor
indistinguishable from a missing one (404). -/
def patchOp (st : LState) (actorRole : Role) (actorId : Nat) (id : Nat)
    (req : PatchReq) : Option EditError × LState :=
  if actorRole ≠ Role.Donor then (some .notADonor, st)
  else
    match findById st.donations id with
    | none => (some .notFound, st)
    | some d =>
      if d.donorId ≠ actorId then (some .notFound, st)
      else if ¬ canEditStatus d then (some .notEditable, st)
      else
        match patchFieldError req with
        | some e => (some e, st)
        | none => (none, ⟨updateById st.donations id (patchApply d req), st.nextId⟩)

/-- Shallow embedding of `DELETE /api/donations/:id` (donor cancel): same
ownership/status guard as edit, then a soft `cancelled` status. -/
def cancelOp (st : LState) (actorRole : Role) (actorId : Nat) (id : Nat) :
    Option EditError × LState :=
  if actorRole ≠ Role.Donor then (some .notADonor, st)
  else
    match findById st.donations id with
    | none => (some .notFound, st)
    | some d =>
      if d.donorId ≠ actorId then (some .notFound, st)
      else if ¬ canEditStatus d then (some .notEditable, st)
      else
        (none,
          ⟨updateById st.donations id { d with status := Status.cancelled }, st.nextId⟩)

/-- The expiry sweep (`services/expiredDonationService.js`): hard-delete
every donation whose expiry has passed, keeping delivered ones for
history. -/
def sweepOp (st : LState) (now : Int) : LState :=
  ⟨st.donations.filter
      (fun p => ¬ (p.2.expiryDate ≤ now ∧ p.2.status ≠ Status.delivered)),
    st.nextId⟩

/-! ## Impact receipts (`models/ImpactReceipt.js`,
`POST /api/donations/:id/create-receipt`) -/

/-- A persisted `ImpactReceipt` document. -/
structure ImpactReceipt where
  donationId : Nat
  receiverId : Nat
  dropLocation : String
  peopleFed : Int
  weightPerServing : Rat
  distanceTraveled : Rat
  methaneSaved : Rat
deriving DecidableEq, Repr

/-- The unique index on `donationId` declared in `models/ImpactReceipt.js`:
all persisted receipts carry pairwise distinct donation ids. -/
def uniqueDonationIds (rs : List ImpactReceipt) : Prop :=
  rs.Pairwise (fun a b => a.donationId ≠ b.donationId)

instance (rs : List ImpactReceipt) : Decidable (uniqueDonationIds rs) := by
  unfold uniqueDonationIds
  exact List.instDecidablePairwise rs

/-- `impactReceipt.save()` under the unique index on `donationId`: the
insert is atomic and fails with a duplicate-key error when a receipt for
the same donation already exists — even when the handler's earlier
`findOne` check raced with another request. -/
def insertReceipt (rs : List ImpactReceipt) (r : ImpactReceipt) :
    Bool × List ImpactReceipt :=
  if rs.any (fun x => x.donationId = r.donationId) then (false, rs)
  else (true, rs ++ [r])

/-- The request body of `POST /api/donations/:id/create-receipt`.
Numeric fields are `some v` when `Number(...)` of the raw value is finite. -/
structure ReceiptReq where
  dropLocation : Option String
  peopleFed : Option Rat
  weightPerServing : Option Rat

/-- Typed rejections of the create-receipt handler, in source order. -/
inductive ReceiptError
  | notAReceiver
  | invalidDropLocation
  | invalidPeopleFed
  | invalidWeight
  | notFound
  | notYours
  | notDelivered
  | alreadyExists
  | duplicateKey
deriving DecidableEq, Repr

/-- `methaneSavedRounded` as computed by the handler:
`Math.round(quantity * weightPerServing * 0.05 * 100) / 100`. -/
def methaneSavedRounded (quantity w : Rat) : Rat :=
  (jsMathRound (quantity * w * (5 / 100) * 100) : Rat) / 100

/-- Modelled from the spec: "methaneSaved = round(quantity *
weightPerServing * 0.05, 2)" with round-half-up to 2 decimal places. -/
def specMethaneSaved (quantity w : Rat) : Rat :=
  (⌊quantity * w * (5 / 100) * 100 + 1 / 2⌋ : Rat) / 100

/-- Shallow embedding of `POST /api/donations/:id/create-receipt`.
`geocodeReceiver` is the geocoding of the populated receiver profile
address, `dist` the straight-line distance engine, and
`receiverProfileAddress` the populated `assignedReceiverId.address`. -/
def createReceiptOp (db : DB) (rs : List ImpactReceipt) (actorRole : Role)
    (receiverId : Nat) (id : Nat) (req : ReceiptReq)
    (receiverProfileAddress : Option String)
    (geocode : String → Option (Rat × Rat))
    (dist : Rat → Rat → Rat → Rat → Rat) :
    Option ReceiptError × List ImpactReceipt :=
  if actorRole ≠ Role.Receiver then (some .notAReceiver, rs)
  else
    match req.dropLocation with
    | none => (some .invalidDropLocation, rs)
    | some dropLoc =>
      if jsTrim dropLoc = "" then (some .invalidDropLocation, rs)
      else
        match req.peopleFed with
        | none => (some .invalidPeopleFed, rs)
        | some peopleFedNum =>
          if peopleFedNum < 1 then (some .invalidPeopleFed, rs)
          else
            match req.weightPerServing with
            | none => (some .invalidWeight, rs)
            | some w =>
              if w < 1 / 1000 then (some .invalidWeight, rs)
              else
                match findById db id with
                | none => (some .notFound, rs)
                | some d =>
                  if d.assignedReceiverId ≠ some receiverId then (some .notYours, rs)
                  else if d.status ≠ Status.delivered then (some .notDelivered, rs)
                  else if rs.any (fun x => x.donationId = id) then (some .alreadyExists, rs)
                  else
                    let distanceTraveled : Rat :=
                      match d.donorLatitude, d.donorLongitude with
                      | some dlat, some dlng =>
                        if dlat ≠ 0 ∧ dlng ≠ 0 ∧ truthyS receiverProfileAddress = true then
                          match receiverProfileAddress with
                          | some a =>
                            match geocode a with
                            | some c => dist dlat dlng c.1 c.2
                            | none => 0
                          | none => 0
                        else 0
                      | _, _ => 0
                    let r : ImpactReceipt :=
                      { donationId := id
                        receiverId := receiverId
                        dropLocation := jsTrim dropLoc
                        peopleFed := jsMathRound peopleFedNum
                        weightPerServing := (jsMathRound (w * 1000) : Rat) / 1000
                        distanceTraveled := distanceTraveled
                        methaneSaved := methaneSavedRounded d.quantity w }
                    match insertReceipt rs r with
                    | (true, rs2) => (none, rs2)
                    | (false, _) => (some .duplicateKey, rs)

/-! ## Available pickups for drivers (`GET /api/donations/available-pickups`) -/

/-- The fixed driver service radius: pickups whose total route distance
exceeds 40 km are filtered out. -/
def MAX_TOTAL_ROUTE_KM : Rat := 40

/-- The `Donation.find` filter of the available-pickups handler: status
`assigned`, a receiver attached, no driver yet, not expired. -/
def pickupQuery (now : Int) (d : Donation) : Bool :=
  decide (d.status = Status.assigned) && d.assignedReceiverId.isSome &&
    d.assignedDriverId.isNone && decide (now < d.expiryDate)

/-- The distance fields of a formatted pickup row (display-only fields of
the response are omitted — they never affect the 40 km filter). -/
structure PickupRow where
  donationKey : Nat
  driverToDonorDistance : Option Rat
  donorToReceiverDistance : Option Rat
  totalRouteDistance : Option Rat
deriving DecidableEq, Repr

/-- One route leg: computed only when all four coordinates are truthy,
preferring the road-network route distance and falling back to the
haversine straight-line distance when the routing service yields null. -/
def routeLeg (routeDist : Rat → Rat → Rat → Rat → Option Rat)
    (haversine : Rat → Rat → Rat → Rat → Rat)
    (lat1 lng1 lat2 lng2 : Option Rat) : Option Rat :=
  match lat1, lng1, lat2, lng2 with
  | some a, some b, some c, some e =>
    if a ≠ 0 ∧ b ≠ 0 ∧ c ≠ 0 ∧ e ≠ 0 then
      some ((routeDist a b c e).getD (haversine a b c e))
    else none
  | _, _, _, _ => none

/-- Formatting one fetched donation into a pickup row: donor coordinates
with geocode fallback (persisted back fire-and-forget, not modelled),
receiver coordinates preferring the claim-time confirmed location, then
the two legs and their sum. -/
def pickupRow (geocode : String → Option (Rat × Rat))
    (routeDist : Rat → Rat → Rat → Rat → Option Rat)
    (haversine : Rat → Rat → Rat → Rat → Rat)
    (receiverProfileAddress : Option String)
    (driverLat driverLng : Option Rat) (p : Nat × Donation) : PickupRow :=
  let d := p.2
  let geo :=
    if (¬ truthyQ d.donorLatitude ∨ ¬ truthyQ d.donorLongitude) ∧
        truthyStr d.donorAddress = true then
      geocode d.donorAddress
    else none
  let donorLat := match geo with | some c => some c.1 | none => d.donorLatitude
  let donorLng := match geo with | some c => some c.2 | none => d.donorLongitude
  let addrOpt :=
    if truthyS d.receiverAddress then d.receiverAddress else receiverProfileAddress
  let rgeo :=
    if (¬ truthyQ d.receiverLatitude ∨ ¬ truthyQ d.receiverLongitude) ∧
        truthyS addrOpt = true then
      match addrOpt with
      | some a => geocode a
      | none => none
    else none
  let receiverLat :=
    match d.receiverLatitude with
    | some v => some v
    | none => rgeo.map Prod.fst
  let receiverLng :=
    match d.receiverLongitude with
    | some v => some v
    | none => rgeo.map Prod.snd
  let driverToDonor := routeLeg routeDist haversine driverLat driverLng donorLat donorLng
  let donorToReceiver := routeLeg routeDist haversine donorLat donorLng receiverLat receiverLng
  let total :=
    match driverToDonor, donorToReceiver with
    | some x, some y => some (x + y)
    | _, _ => none
  ⟨p.1, driverToDonor, donorToReceiver, total⟩

/-- Shallow embedding of `GET /api/donations/available-pickups`: fetch the
order-available donations, format each with its route distances, then show
nothing until the driver has a location and otherwise keep only rows whose
total route distance is known and at most 40 km.  `profileAddress` maps a
receiver user id to the populated profile address. -/
def availablePickups (geocode : String → Option (Rat × Rat))
    (routeDist : Rat → Rat → Rat → Rat → Option Rat)
    (haversine : Rat → Rat → Rat → Rat → Rat)
    (profileAddress : Nat → Option String)
    (driverLat driverLng : Option Rat) (db : DB) (now : Int) : List PickupRow :=
  let fetched := db.filter (fun p => pickupQuery now p.2)
  let rows := fetched.map (fun p =>
    pickupRow geocode routeDist haversine
      (match p.2.assignedReceiverId with
       | some r => profileAddress r
       | none => none)
      driverLat driverLng p)
  if ¬ (truthyQ driverLat = true ∧ truthyQ driverLng = true) then []
  else
    rows.filter (fun r =>
      match r.totalRouteDistance with
      | some t => decide (t ≤ MAX_TOTAL_ROUTE_KM)
      | none => false)

/-! ## Reachable lifecycle states and the driver invariant -/

/-- States reachable from an empty collection by the lifecycle handlers
(each constructor applies one handler with arbitrary request data). -/
inductive Reachable : LState → Prop
  | init : Reachable ⟨[], 0⟩
  | create (role : Role) (a : Nat) (req : CreateReq) (profile : Option DonorProfile)
      (geocode : String → Option (Rat × Rat)) (now : Int) {st : LState} :
      Reachable st → Reachable (createOp st role a req profile geocode now).2
  | claim (role : Role) (a id : Nat) (req : ClaimReq) (now : Int) {st : LState} :
      Reachable st → Reachable (claimOp st role a id req now).2
  | accept (role : Role) (a id : Nat) (now : Int) {st : LState} :
      Reachable st → Reachable (acceptOp st role a id now).2
  | pickup (role : Role) (a id : Nat) (now : Int) {st : LState} :
      Reachable st → Reachable (pickupOp st role a id now).2
  | deliver (role : Role) (a id : Nat) {st : LState} :
      Reachable st → Reachable (deliverOp st role a id).2
  | patch (role : Role) (a id : Nat) (req : PatchReq) {st : LState} :
      Reachable st → Reachable (patchOp st role a id req).2
  | cancel (role : Role) (a id : Nat) {st : LState} :
      Reachable st → Reachable (cancelOp st role a id).2
  | sweep (now : Int) {st : LState} : Reachable st → Reachable (sweepOp st now)

/-- The single-active-order invariant: every driver has at most one
donation in {assigned, picked_up}. -/
def singleActiveInv (st : LState) : Prop :=
  ∀ D, activeCount st.donations D ≤ 1

/-- The structural invariant from §3 of the spec: a driver is only ever
attached after a receiver has claimed. -/
def driverHasReceiver (st : LState) : Prop :=
  ∀ p ∈ st.donations,
    (p.2).assignedDriverId.isSome = true → (p.2).assignedReceiverId.isSome = true

/-- The conjunction of the two lifecycle invariants about assignment. -/
def Inv (st : LState) : Prop := singleActiveInv st ∧ driverHasReceiver st

/-! ### Concrete sample data used to evaluate the handlers -/

/-- A freshly created pending donation used as concrete test data. -/
def sampleDonation : Donation :=
  { donorId := 1
    foodCategory := "Cooked Meals"
    itemName := "Rice"
    quantity := 10
    storageRecommendation := "Hot"
    imageUrl := "img"
    preferredPickupDate := 0
    preferredPickupTimeFrom := "10:00"
    preferredPickupTimeTo := "12:00"
    actualPickupDate := none
    productType := some "cooked"
    expiryDate := 100
    expiryDateFromPackage := none
    donorAddress := "addr"
    donorEmail := "e"
    donorLatitude := some 6
    donorLongitude := some 80
    status := Status.pending
    assignedDriverId := none
    assignedReceiverId := none
    receiverLatitude := none
    receiverLongitude := none
    receiverAddress := none }

/-- `sampleDonation` after a claim by receiver 3 and an accept by driver 7. -/
def activeDonation : Donation :=
  { sampleDonation with
    status := Status.assigned
    assignedReceiverId := some 3
    assignedDriverId := some 7 }

/-- A well-formed create request (cooked product, no client coordinates). -/
def cReq0 : CreateReq :=
  { foodCategory := some "Cooked Meals"
    itemName := some "Rice"
    quantity := some 10
    storageRecommendation := some "Hot"
    imageUrl := some "img"
    preferredPickupDate := some (some 0)
    preferredPickupTimeFrom := some "10:00"
    preferredPickupTimeTo := some "12:00"
    productType := none
    expiryDateFromPackage := none
    userProvidedExpiryDate := none
    donorLatitude := none
    donorLongitude := none }

/-- A donor profile with address and email present. -/
def cProfile0 : Option DonorProfile := some ⟨some "addr", some "e"⟩

/-- A geocoder stub returning a fixed in-bounds location. -/
def cGeo0 : String → Option (Rat × Rat) := fun _ => some (6, 80)

/-- An edit request that supplies no fields. -/
def emptyPatch : PatchReq :=
  ⟨none, none, none, none, none, none, none, none, none, none, none⟩

/-- An edit request supplying only coordinates far outside the service
region (latitude 50, longitude 100). -/
def patchOutOfBounds : PatchReq :=
  ⟨none, none, none, none, none, none, none, none, none, some 50, some 100⟩

/-- A claimed, driverless donation with full coordinates whose total route
distance under `routeDistW` is exactly 40 km (donor at the driver's
latitude). -/
def pickup40 : Donation :=
  { sampleDonation with
    status := Status.assigned
    assignedReceiverId := some 3
    receiverLatitude := some 7
    receiverLongitude := some 81 }

/-- Like `pickup40` but with the donor moved so that the total route
distance under `routeDistW` is 41 km. -/
def pickup41 : Donation :=
  { pickup40 with donorLatitude := some 7 }

/-- A routing stub: legs starting at latitude 6 are 20 km, all others are
21 km (so `pickup40` totals 40 km and `pickup41` totals 41 km for a driver
at latitude 6). -/
def routeDistW : Rat → Rat → Rat → Rat → Option Rat :=
  fun a _ _ _ => if a = 6 then some 20 else some 21

/-- A haversine stub (never consulted when `routeDistW` answers). -/
def havW : Rat → Rat → Rat → Rat → Rat := fun _ _ _ _ => 0

/-- A geocoder stub that resolves nothing. -/
def geoW : String → Option (Rat × Rat) := fun _ => none

/-- A receiver-profile address lookup stub. -/
def profW : Nat → Option String := fun _ => none

/-- `sampleDonation` delivered to receiver 3 with quantity 15 (the spec's
worked methane example). -/
def deliveredDonation : Donation :=
  { sampleDonation with
    quantity := 15
    status := Status.delivered
    assignedReceiverId := some 3
    assignedDriverId := some 7 }

/-- A valid create-receipt request: 5 people fed, 0.3 kg per serving. -/
def receiptReqW : ReceiptReq :=
  ⟨some "Community Hall", some 5, some (3 / 10)⟩

/-! ### Generic lemmas about the document store -/

theorem findById_mem {l : DB} {id : Nat} {d : Donation}
    (h : findById l id = some d) : (id, d) ∈ l := by
  induction l with
  | nil => simp [findById] at h
  | cons p rest ih =>
    by_cases hp : p.1 = id
    · simp only [findById, hp, if_pos] at h
      injection h with h
      subst h
      subst hp
      simp
    · simp only [findById, hp, if_neg, if_false] at h
      exact List.mem_cons_of_mem _ (ih h)

theorem findById_updateById {l : DB} {id : Nat} {dold : Donation} (dnew : Donation)
    (h : findById l id = some dold) :
    findById (updateById l id dnew) id = some dnew := by
  induction l with
  | nil => simp [findById] at h
  | cons p rest ih =>
    by_cases hp : p.1 = id
    · simp [findById, updateById, hp]
    · simp only [findById, updateById, hp, if_neg, if_false] at h ⊢
      exact ih h

theorem countP_updateById (q : Donation → Bool) {l : DB} {id : Nat} {dold : Donation}
    (dnew : Donation) (h : findById l id = some dold) :
    (updateById l id dnew).countP (fun p => q p.2) + (if q dold then 1 else 0)
      = l.countP (fun p => q p.2) + (if q dnew then 1 else 0) := by
  induction l with
  | nil => simp [findById] at h
  | cons p rest ih =>
    by_cases hp : p.1 = id
    · simp only [findById, hp, if_pos] at h
      injection h with h
      subst h
      simp only [updateById, hp, if_pos, List.countP_cons]
      omega
    · simp only [findById, hp, if_neg, if_false] at h
      simp only [updateById, hp, if_neg, if_false, List.countP_cons]
      have := ih h
      omega

theorem mem_updateById {l : DB} {id : Nat} {dnew : Donation} {x : Nat × Donation}
    (hx : x ∈ updateById l id dnew) : x ∈ l ∨ x = (id, dnew) := by
  induction l with
  | nil => simp [updateById] at hx
  | cons p rest ih =>
    by_cases hp : p.1 = id
    · simp only [updateById, hp, if_pos] at hx
      rcases List.mem_cons.mp hx with h | h
      · exact Or.inr h
      · exact Or.inl (List.mem_cons_of_mem _ h)
    · simp only [updateById, hp, if_neg, if_false] at hx
      rcases List.mem_cons.mp hx with h | h
      · exact Or.inl (h ▸ List.mem_cons_self _ _)
      · rcases ih h with h2 | h2
        · exact Or.inl (List.mem_cons_of_mem _ h2)
        · exact Or.inr h2

/-! ### Inversion lemmas: each handler either leaves the state unchanged
or performs its documented write under its guard -/

theorem claimGuard_none {d : Donation} {now : Int} (h : claimGuard d now = none) :
    d.assignedReceiverId = none ∧
      (d.status = Status.pending ∨ d.status = Status.approved) ∧ now < d.expiryDate := by
  unfold claimGuard at h
  by_cases h1 : d.assignedReceiverId.isSome = true
  · simp [h1] at h
  · by_cases h2 : d.status = Status.pending ∨ d.status = Status.approved
    · by_cases h3 : d.expiryDate ≤ now
      · simp [h1, h2, h3] at h
      · refine ⟨?_, h2, by omega⟩
        cases hR : d.assignedReceiverId with
        | none => rfl
        | some v =>
          rw [hR] at h1
          simp at h1
    · simp [h1, h2] at h

theorem claimApply_assignedDriverId (d : Donation) (a : Nat) (req : ClaimReq) :
    (claimApply d a req).assignedDriverId = d.assignedDriverId := by
  unfold claimApply
  rcases req.receiverLatitude with _ | lat <;> rcases req.receiverLongitude with _ | lng <;>
    first
    | rfl
    | (dsimp only; split <;> rfl)

theorem claimApply_assignedReceiverId (d : Donation) (a : Nat) (req : ClaimReq) :
    (claimApply d a req).assignedReceiverId = some a := by
  unfold claimApply
  rcases req.receiverLatitude with _ | lat <;> rcases req.receiverLongitude with _ | lng <;>
    rfl

theorem claimApply_status (d : Donation) (a : Nat) (req : ClaimReq) :
    (claimApply d a req).status = Status.assigned := by
  unfold claimApply
  rcases req.receiverLatitude with _ | lat <;> rcases req.receiverLongitude with _ | lng <;>
    rfl

theorem claimOp_cases (st : LState) (role : Role) (a id : Nat) (req : ClaimReq)
    (now : Int) :
    (claimOp st role a id req now).2 = st ∨
    ∃ d, findById st.donations id = some d ∧ d.assignedReceiverId = none ∧
      (claimOp st role a id req now).2 =
        ⟨updateById st.donations id (claimApply d a req), st.nextId⟩ := by
  unfold claimOp
  split
  · exact Or.inl rfl
  split
  · exact Or.inl rfl
  rename_i d hd
  unfold claimWrite
  split
  · exact Or.inl rfl
  rename_i hg
  exact Or.inr ⟨d, hd, (claimGuard_none hg).1, rfl⟩

theorem acceptOp_cases (st : LState) (role : Role) (drv id : Nat) (now : Int) :
    (acceptOp st role drv id now).2 = st ∨
    ∃ d, findById st.donations id = some d ∧ d.assignedDriverId = none ∧
      d.status = Status.assigned ∧ d.assignedReceiverId.isSome = true ∧
      activeCount st.donations drv = 0 ∧
      (acceptOp st role drv id now).2 =
        ⟨updateById st.donations id { d with assignedDriverId := some drv },
          st.nextId⟩ := by
  unfold acceptOp
  split
  · exact Or.inl rfl
  split
  · exact Or.inl rfl
  rename_i d hd
  split_ifs with h1 h2 h3 h4 h5
  any_goals (left; rfl)
  refine Or.inr ⟨d, hd, ?_, not_not.mp h2, h3, by omega, rfl⟩
  cases hD : d.assignedDriverId with
  | none => rfl
  | some v =>
    rw [hD] at h1
    simp at h1

theorem pickupOp_cases (st : LState) (role : Role) (drv id : Nat) (now : Int) :
    (pickupOp st role drv id now).2 = st ∨
    (∃ d, findById st.donations id = some d ∧
      d.assignedDriverId = none ∧
      d.status = Status.assigned ∧ d.assignedReceiverId.isSome = true ∧
      (pickupOp st role drv id now).2 =
        ⟨updateById st.donations id
          { d with
            assignedDriverId := some drv,
            status := Status.picked_up,
            actualPickupDate := some now },
          st.nextId⟩) ∨
    (∃ d, findById st.donations id = some d ∧
      d.assignedDriverId = some drv ∧
      d.status = Status.assigned ∧ d.assignedReceiverId.isSome = true ∧
      (pickupOp st role drv id now).2 =
        ⟨updateById st.donations id
          { d with
            status := Status.picked_up,
            actualPickupDate := some now },
          st.nextId⟩) := by
  unfold pickupOp
  split
  · exact Or.inl rfl
  split
  · exact Or.inl rfl
  rename_i d hd
  split_ifs with h1 h2 h3 h4 hin
  any_goals (left; rfl)
  · refine Or.inr (Or.inl ⟨d, hd, Option.isNone_iff_eq_none.mp hin, not_not.mp h2, h3, rfl⟩)
  · refine Or.inr (Or.inr ⟨d, hd, ?_, not_not.mp h2, h3, ?_⟩)
    · cases hD : d.assignedDriverId with
      | none =>
        rw [hD] at hin
        simp at hin
      | some v =>
        rw [hD] at h1
        by_contra hne
        exact h1 ⟨by simp, hne⟩
    · rfl

theorem deliverOp_cases (st : LState) (role : Role) (drv id : Nat) :
    (deliverOp st role drv id).2 = st ∨
    ∃ d, findById st.donations id = some d ∧ d.assignedDriverId = some drv ∧
      d.status = Status.picked_up ∧ d.assignedReceiverId.isSome = true ∧
      (deliverOp st role drv id).2 =
        ⟨updateById st.donations id { d with status := Status.delivered },
          st.nextId⟩ := by
  unfold deliverOp
  split
  · exact Or.inl rfl
  split
  · exact Or.inl rfl
  rename_i d hd
  split_ifs with h1 h2 h3
  any_goals (left; rfl)
  exact Or.inr ⟨d, hd, not_not.mp h1, not_not.mp h2, h3, rfl⟩

theorem patchOp_cases (st : LState) (role : Role) (a id : Nat) (req : PatchReq) :
    ((patchOp st role a id req).1 ≠ none ∧ (patchOp st role a id req).2 = st) ∨
    ∃ d, findById st.donations id = some d ∧ (patchOp st role a id req).1 = none ∧
      (patchOp st role a id req).2 =
        ⟨updateById st.donations id (patchApply d req), st.nextId⟩ := by
  unfold patchOp
  split
  · exact Or.inl ⟨Option.some_ne_none _, rfl⟩
  split
  · exact Or.inl ⟨Option.some_ne_none _, rfl⟩
  rename_i d hd
  split_ifs with h1 h2
  · exact Or.inl ⟨Option.some_ne_none _, rfl⟩
  · split
    · exact Or.inl ⟨Option.some_ne_none _, rfl⟩
    · exact Or.inr ⟨d, hd, rfl, rfl⟩
  · exact Or.inl ⟨Option.some_ne_none _, rfl⟩

theorem cancelOp_cases (st : LState) (role : Role) (a id : Nat) :
    ((cancelOp st role a id).1 ≠ none ∧ (cancelOp st role a id).2 = st) ∨
    ∃ d, findById st.donations id = some d ∧ (cancelOp st role a id).1 = none ∧
      (cancelOp st role a id).2 =
        ⟨updateById st.donations id { d with status := Status.cancelled },
          st.nextId⟩ := by
  unfold cancelOp
  split
  · exact Or.inl ⟨Option.some_ne_none _, rfl⟩
  split
  · exact Or.inl ⟨Option.some_ne_none _, rfl⟩
  rename_i d hd
  split_ifs with h1 h2
  · exact Or.inl ⟨Option.some_ne_none _, rfl⟩
  · exact Or.inr ⟨d, hd, rfl, rfl⟩
  · exact Or.inl ⟨Option.some_ne_none _, rfl⟩

theorem createOp_cases (st : LState) (role : Role) (a : Nat) (req : CreateReq)
    (profile : Option DonorProfile) (geocode : String → Option (Rat × Rat))
    (now : Int) :
    ((createOp st role a req profile geocode now).1 ≠ none ∧
      (createOp st role a req profile geocode now).2 = st) ∨
    ∃ d, d.assignedDriverId = none ∧ d.assignedReceiverId = none ∧
      d.productType = some (finalProductType req.productType) ∧
      (∀ p2, profile = some p2 →
        d.donorLatitude = (createFinalCoords req p2.address geocode).1 ∧
        d.donorLongitude = (createFinalCoords req p2.address geocode).2) ∧
      (createOp st role a req profile geocode now).1 = none ∧
      (createOp st role a req profile geocode now).2 =
        ⟨st.donations ++ [(st.nextId, d)], st.nextId + 1⟩ := by
  unfold createOp
  dsimp only
  repeat' first
    | (left; exact ⟨Option.some_ne_none _, rfl⟩)
    | split
  all_goals exact Or.inr ⟨_, rfl, rfl, rfl,
    fun p2 hp2 => by
      injection hp2 with h
      subst h
      exact ⟨rfl, rfl⟩,
    rfl, rfl⟩

/-! ### Preservation of the assignment invariants -/

theorem countP_filter_le (p q : Nat × Donation → Bool) (l : DB) :
    (l.filter q).countP p ≤ l.countP p := by
  induction l with
  | nil => simp
  | cons x rest ih =>
    by_cases hx : q x = true
    · simp only [List.filter_cons, hx, if_pos, List.countP_cons]
      by_cases hp : p x = true <;> simp [hp] <;> omega
    · simp only [List.filter_cons, hx, Bool.false_eq_true, if_false, List.countP_cons]
      by_cases hp : p x = true <;> simp [hp] <;> omega

theorem Inv_updateById_le {st : LState} {id : Nat} {d : Donation} (dnew : Donation)
    (n : Nat) (hd : findById st.donations id = some d) (hInv : Inv st)
    (hcount : ∀ D, activeForDriver D dnew = true → activeForDriver D d = true)
    (hdr : dnew.assignedDriverId.isSome = true → dnew.assignedReceiverId.isSome = true) :
    Inv ⟨updateById st.donations id dnew, n⟩ := by
  constructor
  · intro D
    have hc := countP_updateById (activeForDriver D) dnew hd
    have hle := hInv.1 D
    unfold activeCount at hle
    show (updateById st.donations id dnew).countP (fun p => activeForDriver D p.2) ≤ 1
    by_cases hnew : activeForDriver D dnew = true
    · have hold := hcount D hnew
      simp [hnew, hold] at hc
      omega
    · simp [hnew] at hc
      omega
  · intro p hp
    rcases mem_updateById hp with h | h
    · exact hInv.2 p h
    · rw [h]
      exact hdr

theorem claimOp_preserves (st : LState) (role : Role) (a id : Nat) (req : ClaimReq)
    (now : Int) (hInv : Inv st) : Inv (claimOp st role a id req now).2 := by
  rcases claimOp_cases st role a id req now with heq | ⟨d, hd, hrec, heq⟩
  · rw [heq]
    exact hInv
  · rw [heq]
    have hdrv : d.assignedDriverId = none := by
      cases hD : d.assignedDriverId with
      | none => rfl
      | some v =>
        have := hInv.2 (id, d) (findById_mem hd) (by simp [hD])
        rw [hrec] at this
        simp at this
    refine Inv_updateById_le _ _ hd hInv ?_ ?_
    · intro D h
      exfalso
      unfold activeForDriver at h
      rw [claimApply_assignedDriverId, hdrv] at h
      simp at h
    · intro _
      rw [claimApply_assignedReceiverId]
      rfl

theorem acceptOp_preserves (st : LState) (role : Role) (drv id : Nat) (now : Int)
    (hInv : Inv st) : Inv (acceptOp st role drv id now).2 := by
  rcases acceptOp_cases st role drv id now with heq |
    ⟨d, hd, hdrv, hstat, hrec, hcnt, heq⟩
  · rw [heq]
    exact hInv
  · rw [heq]
    constructor
    · intro D
      have hc := countP_updateById (activeForDriver D)
        { d with assignedDriverId := some drv } hd
      have hdf : activeForDriver D d = false := by
        unfold activeForDriver
        rw [hdrv]
        simp
      by_cases hD : D = drv
      · subst hD
        have hnewt : activeForDriver D { d with assignedDriverId := some D } = true := by
          unfold activeForDriver
          simp [hstat]
        unfold activeCount at hcnt
        show (updateById st.donations id { d with assignedDriverId := some D }).countP
          (fun p => activeForDriver D p.2) ≤ 1
        simp [hdf, hnewt] at hc
        omega
      · have hne : ¬ ((some drv : Option Nat) = some D) := by
          intro hcon
          injection hcon with hcon
          exact hD hcon.symm
        have hnewf : activeForDriver D { d with assignedDriverId := some drv } = false := by
          unfold activeForDriver
          simp [hne]
        have hle := hInv.1 D
        unfold activeCount at hle
        show (updateById st.donations id { d with assignedDriverId := some drv }).countP
          (fun p => activeForDriver D p.2) ≤ 1
        simp [hdf, hnewf] at hc
        omega
    · intro p hp
      rcases mem_updateById hp with h | h
      · exact hInv.2 p h
      · rw [h]
        intro _
        exact hrec

theorem pickupOp_preserves_attached (st : LState) (role : Role) (drv id : Nat)
    (now : Int) (d : Donation) (hd : findById st.donations id = some d)
    (hdrv : d.assignedDriverId.isSome = true) (hInv : Inv st) :
    Inv (pickupOp st role drv id now).2 := by
  rcases pickupOp_cases st role drv id now with heq |
    ⟨d2, hd2, hnone, hstat, hrec, heq⟩ | ⟨d2, hd2, hsome, hstat, hrec, heq⟩
  · rw [heq]
    exact hInv
  · rw [hd] at hd2
    injection hd2 with hd2
    subst hd2
    rw [hnone] at hdrv
    simp at hdrv
  · rw [heq]
    refine Inv_updateById_le _ _ hd2 hInv ?_ ?_
    · intro D h
      unfold activeForDriver at h ⊢
      simp only [hstat]
      simp at h ⊢
      exact h
    · intro _
      exact hrec

theorem deliverOp_preserves (st : LState) (role : Role) (drv id : Nat)
    (hInv : Inv st) : Inv (deliverOp st role drv id).2 := by
  rcases deliverOp_cases st role drv id with heq |
    ⟨d, hd, hdrv, hstat, hrec, heq⟩
  · rw [heq]
    exact hInv
  · rw [heq]
    refine Inv_updateById_le _ _ hd hInv ?_ ?_
    · intro D h
      exfalso
      unfold activeForDriver at h
      simp at h
    · intro _
      exact hrec

theorem cancelOp_preserves (st : LState) (role : Role) (a id : Nat)
    (hInv : Inv st) : Inv (cancelOp st role a id).2 := by
  rcases cancelOp_cases st role a id with ⟨_, heq⟩ | ⟨d, hd, _, heq⟩
  · rw [heq]
    exact hInv
  · rw [heq]
    refine Inv_updateById_le _ _ hd hInv ?_ ?_
    · intro D h
      exfalso
      unfold activeForDriver at h
      simp at h
    · intro h
      exact hInv.2 (id, d) (findById_mem hd) h

theorem patchOp_preserves (st : LState) (role : Role) (a id : Nat) (req : PatchReq)
    (hInv : Inv st) : Inv (patchOp st role a id req).2 := by
  rcases patchOp_cases st role a id req with ⟨_, heq⟩ | ⟨d, hd, _, heq⟩
  · rw [heq]
    exact hInv
  · rw [heq]
    refine Inv_updateById_le _ _ hd hInv ?_ ?_
    · intro D h
      exact h
    · intro h
      exact hInv.2 (id, d) (findById_mem hd) h

theorem createOp_preserves (st : LState) (role : Role) (a : Nat) (req : CreateReq)
    (profile : Option DonorProfile) (geocode : String → Option (Rat × Rat))
    (now : Int) (hInv : Inv st) : Inv (createOp st role a req profile geocode now).2 := by
  rcases createOp_cases st role a req profile geocode now with ⟨_, heq⟩ |
    ⟨d, hdrv, hrec, _, _, _, heq⟩
  · rw [heq]
    exact hInv
  · rw [heq]
    constructor
    · intro D
      have := hInv.1 D
      unfold activeCount at this ⊢
      rw [List.countP_append]
      have hx : activeForDriver D d = false := by
        unfold activeForDriver
        rw [hdrv]
        simp
      simp [List.countP_cons, hx]
      omega
    · intro p hp
      rcases List.mem_append.mp hp with h | h
      · exact hInv.2 p h
      · simp only [List.mem_singleton] at h
        rw [h]
        intro hcon
        rw [hdrv] at hcon
        simp at hcon

theorem sweepOp_preserves (st : LState) (now : Int) (hInv : Inv st) :
    Inv (sweepOp st now) := by
  constructor
  · intro D
    have := hInv.1 D
    unfold activeCount at this ⊢
    unfold sweepOp
    exact le_trans (countP_filter_le _ _ _) this
  · intro p hp
    exact hInv.2 p (List.mem_of_mem_filter hp)

/-- C4: the expiry computation is a deterministic pure function of
(product type, package expiry, user expiry, creation time) with exact
priority: user-supplied expiry verbatim; else cooked = creation + 2 days;
else packed with package expiry = that expiry; else packed = creation +
7 days; else unknown type = creation + 3 days. -/
theorem C4_expiry_priority (pt : Option String) (pkg user : Option JSDate) (t now : Int) :
    (∀ e : JSDate, calculateExpiryDate pt pkg (some e) (some (some t)) now = e)
    ∧ (user = none → pt = some "cooked" →
        calculateExpiryDate pt pkg user (some (some t)) now = some (t + 2 * dayMs))
    ∧ (user = none → pt = some "packed" → ∀ p : JSDate, pkg = some p →
        calculateExpiryDate pt pkg user (some (some t)) now = p)
    ∧ (user = none → pt = some "packed" → pkg = none →
        calculateExpiryDate pt pkg user (some (some t)) now = some (t + 7 * dayMs))
    ∧ (user = none → pt ≠ some "cooked" → pt ≠ some "packed" →
        calculateExpiryDate pt pkg user (some (some t)) now = some (t + 3 * dayMs)) := by
  refine ⟨fun e => rfl, ?_, ?_, ?_, ?_⟩
  · rintro rfl rfl
    rfl
  · rintro rfl rfl p rfl
    rfl
  · rintro rfl rfl rfl
    rfl
  · rintro rfl hc hp
    simp [calculateExpiryDate, hc, hp]

/-- Witness for `C4_expiry_priority`: each of the five branches evaluated
at a concrete input. -/
theorem C4_expiry_priority_witness :
    calculateExpiryDate (some "cooked") none (some (some 99)) (some (some 0)) 5 = some 99
    ∧ calculateExpiryDate (some "cooked") none none (some (some 0)) 5 = some (2 * dayMs)
    ∧ calculateExpiryDate (some "packed") (some (some 77)) none (some (some 0)) 5 = some 77
    ∧ calculateExpiryDate (some "packed") none none (some (some 0)) 5 = some (7 * dayMs)
    ∧ calculateExpiryDate (some "fruit") none none (some (some 0)) 5 = some (3 * dayMs) :=
  ⟨(C4_expiry_priority (some "cooked") none none 0 5).1 (some 99),
   (C4_expiry_priority (some "cooked") none none 0 5).2.1 rfl rfl,
   (C4_expiry_priority (some "packed") (some (some 77)) none 0 5).2.2.1 rfl rfl (some 77) rfl,
   (C4_expiry_priority (some "packed") none none 0 5).2.2.2.1 rfl rfl rfl,
   (C4_expiry_priority (some "fruit") none none 0 5).2.2.2.2 rfl (by decide) (by decide)⟩

/-- C3 (failing scenario): the pre-save hook derives the tracking sequence
from a same-day `countDocuments`, so deleting an earlier same-day donation
makes the counter reuse a number.  Creating two donations on 2025-10-11,
deleting the first, then creating a third yields two documents both
carrying `FL-20251011-02` — a collision, contradicting distinct gapless
ids (and the atomic `getNextSequenceForDate` counter is never consulted). -/
theorem C3_trackingId_duplicate :
    ((createTracked
        (deleteTracked
          (createTracked (createTracked [] ⟨2025, 10, 11⟩) ⟨2025, 10, 11⟩)
          "FL-20251011-01")
        ⟨2025, 10, 11⟩).filter
      (fun x => x.trackingId = "FL-20251011-02")).length = 2 := by
  decide

/-! ## Claim theorems -/

/-- The result of `calculateExpiryDate` is the interpretation of the branch
reported by `calculateExpiryBranch`. -/
theorem calculateExpiryDate_eq_branch (pt : Option String)
    (pkg user createdAt : Option JSDate) (now : Int) :
    calculateExpiryDate pt pkg user createdAt now =
      match calculateExpiryBranch pt pkg user with
      | .userProvided => user.getD none
      | .cookedTwoDays => (createdAt.getD (some now)).map (fun t => t + 2 * dayMs)
      | .packageExpiry => pkg.getD none
      | .packedSevenDays => (createdAt.getD (some now)).map (fun t => t + 7 * dayMs)
      | .unknownThreeDays => (createdAt.getD (some now)).map (fun t => t + 3 * dayMs) := by
  unfold calculateExpiryDate calculateExpiryBranch
  cases user with
  | some e => rfl
  | none =>
    by_cases hc : pt = some "cooked"
    · simp [hc]
    · by_cases hp : pt = some "packed"
      · cases pkg <;> simp [hc, hp]
      · simp [hc, hp]

/-- C1 (counterexample): the single-active-order invariant is not preserved
by every lifecycle operation.  From the empty store: two donations are
created and claimed; driver 7 accepts the first (passing the active-order
count check), then confirms pickup of the second through the
backward-compatibility path, which attaches the driver without counting —
reaching a state in which driver 7 has two active donations. -/
theorem C1_counterexample :
    ∃ st, Reachable st ∧ 2 ≤ activeCount st.donations 7 := by
  refine ⟨_, Reachable.pickup Role.Driver 7 1 0
    (Reachable.accept Role.Driver 7 0 0
      (Reachable.claim Role.Receiver 4 1 ⟨none, none, none⟩ 0
        (Reachable.claim Role.Receiver 3 0 ⟨none, none, none⟩ 0
          (Reachable.create Role.Donor 1 cReq0 cProfile0 cGeo0 0
            (Reachable.create Role.Donor 1 cReq0 cProfile0 cGeo0 0
              Reachable.init))))), ?_⟩
  decide

/-- C1 (amended): accept-order counts the acting driver's donations in
{assigned, picked_up} and rejects when the count is ≥ 1, and every
lifecycle operation except the confirm-pickup backward-compatibility
driver-attach path preserves the at-most-one-active-donation-per-driver
invariant (confirm-pickup preserves it whenever the donation already has a
driver attached). -/
theorem C1_single_active_amended (st : LState) (hInv : Inv st) :
    (∀ role drv id now, 1 ≤ activeCount st.donations drv →
        (acceptOp st role drv id now).1 ≠ none)
    ∧ (∀ role a req profile geocode now,
        Inv (createOp st role a req profile geocode now).2)
    ∧ (∀ role a id req now, Inv (claimOp st role a id req now).2)
    ∧ (∀ role drv id now, Inv (acceptOp st role drv id now).2)
    ∧ (∀ role drv id now d, findById st.donations id = some d →
        d.assignedDriverId.isSome = true → Inv (pickupOp st role drv id now).2)
    ∧ (∀ role drv id, Inv (deliverOp st role drv id).2)
    ∧ (∀ role a id req, Inv (patchOp st role a id req).2)
    ∧ (∀ role a id, Inv (cancelOp st role a id).2)
    ∧ (∀ now, Inv (sweepOp st now)) := by
  refine ⟨?_, ?_, ?_, ?_, ?_, ?_, ?_, ?_, ?_⟩
  · intro role drv id now hge
    unfold acceptOp
    split
    · simp
    split
    · simp
    split_ifs with h1 h2 h3 h4 h5 <;> simp
    omega
  · intro role a req profile geocode now
    exact createOp_preserves st role a req profile geocode now hInv
  · intro role a id req now
    exact claimOp_preserves st role a id req now hInv
  · intro role drv id now
    exact acceptOp_preserves st role drv id now hInv
  · intro role drv id now d hd hdrv
    exact pickupOp_preserves_attached st role drv id now d hd hdrv hInv
  · intro role drv id
    exact deliverOp_preserves st role drv id hInv
  · intro role a id req
    exact patchOp_preserves st role a id req hInv
  · intro role a id
    exact cancelOp_preserves st role a id hInv
  · intro now
    exact sweepOp_preserves st now hInv

/-- Witness for `C1_single_active_amended`: in a store where driver 7
already has one active donation, a further accept-order by driver 7 is
rejected, and a confirm-pickup on the donation already attached to driver 7
preserves the invariant. -/
theorem C1_single_active_amended_witness :
    (acceptOp ⟨[(0, activeDonation)], 1⟩ Role.Driver 7 0 0).1 ≠ none
    ∧ Inv (pickupOp ⟨[(0, activeDonation)], 1⟩ Role.Driver 7 0 0).2 := by
  have hInv : Inv ⟨[(0, activeDonation)], 1⟩ := by
    refine ⟨fun D => List.countP_le_length _, ?_⟩
    intro p hp
    simp only [List.mem_singleton] at hp
    rw [hp]
    intro _
    rfl
  exact ⟨(C1_single_active_amended _ hInv).1 Role.Driver 7 0 0 (by decide),
    (C1_single_active_amended _ hInv).2.2.2.2.1 Role.Driver 7 0 0 activeDonation
      rfl rfl⟩

/-- C2 (counterexample): two interleaved claim requests on the same
pending donation can both succeed.  Each handler execution is the
read-then-write pair of the source (`findById` then `save()`): receivers
21 and 22 both read the donation before either write, both writes pass the
guard evaluated on their stale snapshot, and both requests report
success — violating "exactly one succeeds, never both". -/
theorem C2_counterexample :
    findById [(1, sampleDonation)] 1 = some sampleDonation
    ∧ (claimWrite ⟨[(1, sampleDonation)], 2⟩ 1 sampleDonation 21
        ⟨none, none, none⟩ 0).1 = none
    ∧ (claimWrite
        (claimWrite ⟨[(1, sampleDonation)], 2⟩ 1 sampleDonation 21
          ⟨none, none, none⟩ 0).2
        1 sampleDonation 22 ⟨none, none, none⟩ 0).1 = none := by
  refine ⟨by decide, by decide, by decide⟩

/-- C2 (amended): when the two claim executions do not interleave — the
second request's read happens after the first request's write — exactly
one succeeds: the first claim returns success and the second receives the
already-claimed conflict, leaving the state unchanged. -/
theorem C2_sequential_claim (st : LState) (a1 a2 id : Nat) (req1 req2 : ClaimReq)
    (now1 now2 : Int) (d : Donation) (hd : findById st.donations id = some d)
    (hrec : d.assignedReceiverId = none)
    (hstat : d.status = Status.pending ∨ d.status = Status.approved)
    (hexp : now1 < d.expiryDate) :
    (claimOp st Role.Receiver a1 id req1 now1).1 = none
    ∧ (claimOp (claimOp st Role.Receiver a1 id req1 now1).2
        Role.Receiver a2 id req2 now2).1 = some ClaimError.alreadyClaimed
    ∧ (claimOp (claimOp st Role.Receiver a1 id req1 now1).2
        Role.Receiver a2 id req2 now2).2 =
      (claimOp st Role.Receiver a1 id req1 now1).2 := by
  have hg1 : claimGuard d now1 = none := by
    unfold claimGuard
    rw [hrec]
    simp [hstat, not_le.mpr hexp]
  have e1 : claimOp st Role.Receiver a1 id req1 now1 =
      (none, ⟨updateById st.donations id (claimApply d a1 req1), st.nextId⟩) := by
    unfold claimOp claimWrite
    simp [hd, hg1]
  have hd2 : findById (updateById st.donations id (claimApply d a1 req1)) id =
      some (claimApply d a1 req1) := findById_updateById _ hd
  have hg2 : claimGuard (claimApply d a1 req1) now2 =
      some ClaimError.alreadyClaimed := by
    unfold claimGuard
    rw [claimApply_assignedReceiverId]
    rfl
  refine ⟨by rw [e1], ?_, ?_⟩
  · rw [e1]
    unfold claimOp claimWrite
    simp [hd2, hg2]
  · rw [e1]
    unfold claimOp claimWrite
    simp [hd2, hg2]

/-- Witness for `C2_sequential_claim`: the sequential outcome evaluated on
a concrete pending donation. -/
theorem C2_sequential_claim_witness :
    (claimOp ⟨[(1, sampleDonation)], 2⟩ Role.Receiver 21 1
      ⟨none, none, none⟩ 0).1 = none
    ∧ (claimOp (claimOp ⟨[(1, sampleDonation)], 2⟩ Role.Receiver 21 1
        ⟨none, none, none⟩ 0).2 Role.Receiver 22 1 ⟨none, none, none⟩ 0).1 =
      some ClaimError.alreadyClaimed
    ∧ (claimOp (claimOp ⟨[(1, sampleDonation)], 2⟩ Role.Receiver 21 1
        ⟨none, none, none⟩ 0).2 Role.Receiver 22 1 ⟨none, none, none⟩ 0).2 =
      (claimOp ⟨[(1, sampleDonation)], 2⟩ Role.Receiver 21 1
        ⟨none, none, none⟩ 0).2 :=
  C2_sequential_claim ⟨[(1, sampleDonation)], 2⟩ 21 22 1 ⟨none, none, none⟩
    ⟨none, none, none⟩ 0 0 sampleDonation rfl rfl (Or.inl rfl) (by decide)

/-- The edit/cancel status guard expanded: pending or approved, or
assigned with no driver attached. -/
theorem canEditStatus_iff (d : Donation) :
    canEditStatus d = true ↔
      (d.status = Status.pending ∨ d.status = Status.approved ∨
        (d.status = Status.assigned ∧ d.assignedDriverId = none)) := by
  cases hs : d.status <;> cases hD : d.assignedDriverId <;>
    simp [canEditStatus, hs, hD]

/-- C7: for a syntactically valid edit request, the donor edit and cancel
operations succeed exactly when the actor is the owning donor and the
status is pending/approved, or assigned with no driver attached; every
rejected request leaves the store unchanged. -/
theorem C7_edit_cancel_guard (st : LState) (role : Role) (a id : Nat)
    (req : PatchReq) (d : Donation)
    (hreq : patchFieldError req = none)
    (hd : findById st.donations id = some d) :
    ((patchOp st role a id req).1 = none ↔
      (role = Role.Donor ∧ d.donorId = a ∧
        (d.status = Status.pending ∨ d.status = Status.approved ∨
          (d.status = Status.assigned ∧ d.assignedDriverId = none))))
    ∧ ((patchOp st role a id req).1 ≠ none → (patchOp st role a id req).2 = st)
    ∧ ((cancelOp st role a id).1 = none ↔
      (role = Role.Donor ∧ d.donorId = a ∧
        (d.status = Status.pending ∨ d.status = Status.approved ∨
          (d.status = Status.assigned ∧ d.assignedDriverId = none))))
    ∧ ((cancelOp st role a id).1 ≠ none → (cancelOp st role a id).2 = st) := by
  have hiff := canEditStatus_iff d
  refine ⟨?_, ?_, ?_, ?_⟩
  · rw [← hiff]
    unfold patchOp
    by_cases hrole : role = Role.Donor
    · by_cases hown : d.donorId = a
      · by_cases hedit : canEditStatus d = true
        · simp [hd, hrole, hown, hedit, hreq]
        · simp [hd, hrole, hown, hedit]
      · simp [hd, hrole, hown]
    · simp [hrole]
  · intro hne
    rcases patchOp_cases st role a id req with ⟨_, heq⟩ | ⟨d2, _, hnone, _⟩
    · exact heq
    · exact absurd hnone hne
  · rw [← hiff]
    unfold cancelOp
    by_cases hrole : role = Role.Donor
    · by_cases hown : d.donorId = a
      · by_cases hedit : canEditStatus d = true
        · simp [hd, hrole, hown, hedit]
        · simp [hd, hrole, hown, hedit]
      · simp [hd, hrole, hown]
    · simp [hrole]
  · intro hne
    rcases cancelOp_cases st role a id with ⟨_, heq⟩ | ⟨d2, _, hnone, _⟩
    · exact heq
    · exact absurd hnone hne

/-- Witness for `C7_edit_cancel_guard`: an owner edit of a pending
donation succeeds; an owner cancel of a driver-attached donation is
rejected and leaves the store unchanged. -/
theorem C7_edit_cancel_guard_witness :
    (patchOp ⟨[(0, sampleDonation)], 1⟩ Role.Donor 1 0 emptyPatch).1 = none
    ∧ (cancelOp ⟨[(0, activeDonation)], 1⟩ Role.Donor 1 0).1 ≠ none
    ∧ (cancelOp ⟨[(0, activeDonation)], 1⟩ Role.Donor 1 0).2 =
      ⟨[(0, activeDonation)], 1⟩ := by
  refine ⟨?_, ?_, ?_⟩
  · exact (C7_edit_cancel_guard ⟨[(0, sampleDonation)], 1⟩ Role.Donor 1 0
      emptyPatch sampleDonation rfl rfl).1.mpr ⟨rfl, rfl, Or.inl rfl⟩
  · intro hcon
    rcases (C7_edit_cancel_guard ⟨[(0, activeDonation)], 1⟩ Role.Donor 1 0
        emptyPatch activeDonation rfl rfl).2.2.1.mp hcon with
      ⟨_, _, h | h | ⟨_, hdrv⟩⟩
    · exact absurd h (by decide)
    · exact absurd h (by decide)
    · exact absurd hdrv (by decide)
  · exact (C7_edit_cancel_guard ⟨[(0, activeDonation)], 1⟩ Role.Donor 1 0
      emptyPatch activeDonation rfl rfl).2.2.2 (by decide)

/-- C9 (counterexample): the donor edit endpoint stores client-supplied
coordinates verbatim with no bounding-box validation: an edit carrying
latitude 50 / longitude 100 (far outside [5,10]×[79,82]) succeeds and the
out-of-bounds pair is persisted, refuting "applied everywhere coordinates
are accepted from a client". -/
theorem C9_counterexample :
    inBounds 50 100 = false
    ∧ (patchOp ⟨[(0, sampleDonation)], 1⟩ Role.Donor 1 0 patchOutOfBounds).1 = none
    ∧ findById (patchOp ⟨[(0, sampleDonation)], 1⟩ Role.Donor 1 0
        patchOutOfBounds).2.donations 0 =
      some { sampleDonation with
              donorLatitude := some 50, donorLongitude := some 100 } := by
  refine ⟨by decide, by decide, by decide⟩

/-- C9 (amended): at donation creation a client coordinate pair outside
the service bounding box is treated exactly as an absent pair (the
address is re-geocoded instead), the persisted donor coordinates are the
ones resolved by that rule, and at claim time a receiver pair is stored
when inside the box and dropped when outside; the donor edit endpoint is
exempt — it stores client coordinates without validation. -/
theorem C9_coords_amended :
    (∀ (req : CreateReq) (addr : Option String)
        (geo : String → Option (Rat × Rat)) (lat lng : Rat),
      req.donorLatitude = some lat → req.donorLongitude = some lng →
      inBounds lat lng = false →
      createFinalCoords req addr geo =
        createFinalCoords
          { req with donorLatitude := none, donorLongitude := none } addr geo)
    ∧ (∀ (st : LState) (role : Role) (a : Nat) (req : CreateReq)
        (p : DonorProfile) (geo : String → Option (Rat × Rat)) (now : Int),
      (createOp st role a req (some p) geo now).1 = none →
      ∃ d, (createOp st role a req (some p) geo now).2.donations =
          st.donations ++ [(st.nextId, d)] ∧
        d.donorLatitude = (createFinalCoords req p.address geo).1 ∧
        d.donorLongitude = (createFinalCoords req p.address geo).2)
    ∧ (∀ (d : Donation) (a : Nat) (req : ClaimReq) (lat lng : Rat),
      req.receiverLatitude = some lat → req.receiverLongitude = some lng →
      inBounds lat lng = true →
      (claimApply d a req).receiverLatitude = some lat ∧
      (claimApply d a req).receiverLongitude = some lng)
    ∧ (∀ (d : Donation) (a : Nat) (req : ClaimReq) (lat lng : Rat),
      req.receiverLatitude = some lat → req.receiverLongitude = some lng →
      inBounds lat lng = false →
      (claimApply d a req).receiverLatitude = d.receiverLatitude ∧
      (claimApply d a req).receiverLongitude = d.receiverLongitude) := by
  refine ⟨?_, ?_, ?_, ?_⟩
  · intro req addr geo lat lng hlat hlng hb
    unfold createFinalCoords
    rw [hlat, hlng]
    simp [hb]
  · intro st role a req p geo now hs
    rcases createOp_cases st role a req (some p) geo now with ⟨hne, _⟩ |
      ⟨d, _, _, _, hcoords, _, heq⟩
    · exact absurd hs hne
    · obtain ⟨h1, h2⟩ := hcoords p rfl
      exact ⟨d, by rw [heq], h1, h2⟩
  · intro d a req lat lng hlat hlng hb
    unfold claimApply
    rw [hlat, hlng]
    simp [hb]
  · intro d a req lat lng hlat hlng hb
    unfold claimApply
    rw [hlat, hlng]
    simp [hb]

/-- Witness for `C9_coords_amended`: the four clauses evaluated at
concrete requests (out-of-bounds create pair, a successful create, an
in-bounds claim pair, an out-of-bounds claim pair). -/
theorem C9_coords_amended_witness :
    createFinalCoords
        { cReq0 with donorLatitude := some 50, donorLongitude := some 100 }
        (some "addr") cGeo0 =
      createFinalCoords
        { { cReq0 with donorLatitude := some 50, donorLongitude := some 100 } with
            donorLatitude := none, donorLongitude := none }
        (some "addr") cGeo0
    ∧ (∃ d, (createOp ⟨[], 0⟩ Role.Donor 1 cReq0
          (some ⟨some "addr", some "e"⟩) cGeo0 0).2.donations = [] ++ [(0, d)] ∧
        d.donorLatitude = (createFinalCoords cReq0 (some "addr") cGeo0).1 ∧
        d.donorLongitude = (createFinalCoords cReq0 (some "addr") cGeo0).2)
    ∧ ((claimApply sampleDonation 3 ⟨some 7, some 80, none⟩).receiverLatitude =
          some 7 ∧
        (claimApply sampleDonation 3 ⟨some 7, some 80, none⟩).receiverLongitude =
          some 80)
    ∧ ((claimApply sampleDonation 3 ⟨some 50, some 100, none⟩).receiverLatitude =
          sampleDonation.receiverLatitude ∧
        (claimApply sampleDonation 3 ⟨some 50, some 100, none⟩).receiverLongitude =
          sampleDonation.receiverLongitude) :=
  ⟨C9_coords_amended.1 _ (some "addr") cGeo0 50 100 rfl rfl (by decide),
   C9_coords_amended.2.1 ⟨[], 0⟩ Role.Donor 1 cReq0 ⟨some "addr", some "e"⟩
     cGeo0 0 (by decide),
   C9_coords_amended.2.2.1 sampleDonation 3 ⟨some 7, some 80, none⟩ 7 80
     rfl rfl (by decide),
   C9_coords_amended.2.2.2 sampleDonation 3 ⟨some 50, some 100, none⟩ 50 100
     rfl rfl (by decide)⟩

/-- Both product types the create handler can persist avoid the unknown
fallback branch of the expiry computation. -/
theorem calculateExpiryBranch_known (s : String)
    (hs2 : s = "packed" ∨ s = "cooked") (pkg user : Option JSDate) :
    calculateExpiryBranch (some s) pkg user ≠ ExpiryBranch.unknownThreeDays := by
  unfold calculateExpiryBranch
  cases user with
  | some e => simp
  | none =>
    rcases hs2 with h | h <;> subst h
    · have h1 : ¬ ((some "packed" : Option String) = some "cooked") := by decide
      have h2 : ((some "packed" : Option String) = some "packed") := rfl
      rw [if_neg h1, if_pos h2]
      cases pkg <;> simp
    · have h1 : ((some "cooked" : Option String) = some "cooked") := rfl
      rw [if_pos h1]
      simp

/-- C10: every donation persisted by the create operation carries
productType 'packed' when the request says 'packed' and 'cooked' in all
other cases — never null or another value — so the unknown-product-type
3-day fallback branch of `calculateExpiryDate` is unreachable through
donation creation. -/
theorem C10_productType (st : LState) (role : Role) (a : Nat) (req : CreateReq)
    (profile : Option DonorProfile) (geocode : String → Option (Rat × Rat))
    (now : Int) (hs : (createOp st role a req profile geocode now).1 = none) :
    ∃ d, (createOp st role a req profile geocode now).2.donations =
        st.donations ++ [(st.nextId, d)] ∧
      (req.productType = some "packed" → d.productType = some "packed") ∧
      (req.productType ≠ some "packed" → d.productType = some "cooked") ∧
      d.productType ≠ none ∧
      (∀ pkg user, calculateExpiryBranch d.productType pkg user ≠
        ExpiryBranch.unknownThreeDays) := by
  rcases createOp_cases st role a req profile geocode now with ⟨hne, _⟩ |
    ⟨d, _, _, hpt, _, _, heq⟩
  · exact absurd hs hne
  · refine ⟨d, by rw [heq], ?_, ?_, ?_, ?_⟩
    · intro h
      rw [hpt]
      simp [finalProductType, h]
    · intro h
      rw [hpt]
      simp [finalProductType, h]
    · rw [hpt]
      simp
    · intro pkg user
      rw [hpt]
      refine calculateExpiryBranch_known _ ?_ pkg user
      unfold finalProductType
      by_cases hp : req.productType = some "packed" <;> simp [hp]

/-- Witness for `C10_productType`: a successful concrete create without
productType 'packed' persists 'cooked'. -/
theorem C10_productType_witness :
    ∃ d, (createOp ⟨[], 0⟩ Role.Donor 1 cReq0 cProfile0 cGeo0 0).2.donations =
        [] ++ [(0, d)] ∧
      (cReq0.productType = some "packed" → d.productType = some "packed") ∧
      (cReq0.productType ≠ some "packed" → d.productType = some "cooked") ∧
      d.productType ≠ none ∧
      (∀ pkg user, calculateExpiryBranch d.productType pkg user ≠
        ExpiryBranch.unknownThreeDays) :=
  C10_productType ⟨[], 0⟩ Role.Donor 1 cReq0 cProfile0 cGeo0 0 (by decide)

/-- C5: in the available-pickups projection, every returned pickup has a
computed total route distance of at most 40 km, the boundary is inclusive
(any fetched donation whose computed total is ≤ 40 km appears, and none
with a total over 40 km can appear), and with no known driver location the
result set is empty. -/
theorem C5_pickup_radius (geocode : String → Option (Rat × Rat))
    (routeDist : Rat → Rat → Rat → Rat → Option Rat)
    (haversine : Rat → Rat → Rat → Rat → Rat)
    (profileAddress : Nat → Option String)
    (driverLat driverLng : Option Rat) (db : DB) (now : Int) :
    (¬ (truthyQ driverLat = true ∧ truthyQ driverLng = true) →
      availablePickups geocode routeDist haversine profileAddress
        driverLat driverLng db now = [])
    ∧ (∀ r ∈ availablePickups geocode routeDist haversine profileAddress
          driverLat driverLng db now,
        ∃ t, r.totalRouteDistance = some t ∧ t ≤ MAX_TOTAL_ROUTE_KM)
    ∧ (∀ r ∈ availablePickups geocode routeDist haversine profileAddress
          driverLat driverLng db now,
        ∀ t, r.totalRouteDistance = some t → ¬ (MAX_TOTAL_ROUTE_KM < t))
    ∧ (truthyQ driverLat = true → truthyQ driverLng = true →
        ∀ p ∈ db, pickupQuery now p.2 = true →
        ∀ t, (pickupRow geocode routeDist haversine
            (match p.2.assignedReceiverId with
             | some r => profileAddress r
             | none => none) driverLat driverLng p).totalRouteDistance = some t →
        t ≤ MAX_TOTAL_ROUTE_KM →
        pickupRow geocode routeDist haversine
            (match p.2.assignedReceiverId with
             | some r => profileAddress r
             | none => none) driverLat driverLng p ∈
          availablePickups geocode routeDist haversine profileAddress
            driverLat driverLng db now) := by
  have key : ∀ r ∈ availablePickups geocode routeDist haversine profileAddress
      driverLat driverLng db now,
      ∃ t, r.totalRouteDistance = some t ∧ t ≤ MAX_TOTAL_ROUTE_KM := by
    intro r hr
    unfold availablePickups at hr
    by_cases hloc : truthyQ driverLat = true ∧ truthyQ driverLng = true
    · rw [if_neg (by simpa using hloc)] at hr
      obtain ⟨_, hcond⟩ := List.mem_filter.mp hr
      cases ht : r.totalRouteDistance with
      | none => simp [ht] at hcond
      | some t =>
        rw [ht] at hcond
        exact ⟨t, rfl, of_decide_eq_true hcond⟩
    · rw [if_pos hloc] at hr
      cases hr
  refine ⟨?_, key, ?_, ?_⟩
  · intro h
    unfold availablePickups
    rw [if_pos h]
  · intro r hr t htot hgt
    obtain ⟨t2, ht2, hle⟩ := key r hr
    rw [htot] at ht2
    injection ht2 with h2
    subst h2
    exact absurd hgt (not_lt.mpr hle)
  · intro h1 h2 p hp hq t htot hle
    unfold availablePickups
    rw [if_neg (by simp [h1, h2])]
    refine List.mem_filter.mpr ⟨?_, ?_⟩
    · exact List.mem_map.mpr ⟨p, List.mem_filter.mpr ⟨hp, hq⟩, rfl⟩
    · rw [htot]
      exact decide_eq_true hle

/-- Witness for `C5_pickup_radius`: with a driver at (6, 80), the pickup
whose total route distance is exactly 40 km appears, the 41 km pickup does
not, and with no driver latitude the list is empty. -/
theorem C5_pickup_radius_witness :
    pickupRow geoW routeDistW havW none (some 6) (some 80) (0, pickup40) ∈
      availablePickups geoW routeDistW havW profW (some 6) (some 80)
        [(0, pickup40), (1, pickup41)] 0
    ∧ (pickupRow geoW routeDistW havW none (some 6) (some 80)
        (1, pickup41)).totalRouteDistance = some 41
    ∧ pickupRow geoW routeDistW havW none (some 6) (some 80) (1, pickup41) ∉
      availablePickups geoW routeDistW havW profW (some 6) (some 80)
        [(0, pickup40), (1, pickup41)] 0
    ∧ availablePickups geoW routeDistW havW profW none (some 80)
        [(0, pickup40), (1, pickup41)] 0 = [] := by
  have h40 : (pickupRow geoW routeDistW havW none (some 6) (some 80)
      (0, pickup40)).totalRouteDistance = some 40 := by
    simp [pickupRow, routeLeg, geoW, routeDistW, havW, pickup40, sampleDonation,
      truthyQ, truthyS, truthyStr]
    norm_num
  have h41 : (pickupRow geoW routeDistW havW none (some 6) (some 80)
      (1, pickup41)).totalRouteDistance = some 41 := by
    simp [pickupRow, routeLeg, geoW, routeDistW, havW, pickup41, pickup40,
      sampleDonation, truthyQ, truthyS, truthyStr]
    norm_num
  refine ⟨?_, h41, ?_, ?_⟩
  · have h := (C5_pickup_radius geoW routeDistW havW profW (some 6) (some 80)
      [(0, pickup40), (1, pickup41)] 0).2.2.2 (by decide) (by decide)
      (0, pickup40) (by decide) (by decide) 40 (by simpa using h40) (by decide)
    simpa using h
  · intro hmem
    obtain ⟨t, ht, hle⟩ := (C5_pickup_radius geoW routeDistW havW profW
      (some 6) (some 80) [(0, pickup40), (1, pickup41)] 0).2.1 _ hmem
    rw [h41] at ht
    injection ht with h2
    rw [← h2] at hle
    norm_num [MAX_TOTAL_ROUTE_KM] at hle
  · exact (C5_pickup_radius geoW routeDistW havW profW none (some 80)
      [(0, pickup40), (1, pickup41)] 0).1 (by decide)

/-- Inversion for the create-receipt handler: either it rejects and
leaves the receipts unchanged, or every guard passed and exactly one new
receipt for this donation was appended. -/
theorem createReceiptOp_cases (db : DB) (rs : List ImpactReceipt) (role : Role)
    (receiverId id : Nat) (req : ReceiptReq) (addr : Option String)
    (geocode : String → Option (Rat × Rat)) (dist : Rat → Rat → Rat → Rat → Rat)
    (out : Option ReceiptError × List ImpactReceipt)
    (hout : createReceiptOp db rs role receiverId id req addr geocode dist =
      out) :
    (∃ e, out = (some e, rs)) ∨
    ∃ dropLoc peopleFedNum w d r,
      role = Role.Receiver ∧
      req.dropLocation = some dropLoc ∧ ¬ jsTrim dropLoc = "" ∧
      req.peopleFed = some peopleFedNum ∧ ¬ peopleFedNum < 1 ∧
      req.weightPerServing = some w ∧ ¬ w < 1 / 1000 ∧
      findById db id = some d ∧ ¬ d.assignedReceiverId ≠ some receiverId ∧
      ¬ d.status ≠ Status.delivered ∧
      ¬ rs.any (fun x => x.donationId = id) = true ∧
      ImpactReceipt.donationId r = id ∧
      ImpactReceipt.methaneSaved r = methaneSavedRounded d.quantity w ∧
      out = (none, rs ++ [r]) := by
  unfold createReceiptOp at hout
  split at hout
  · exact Or.inl ⟨_, hout.symm⟩
  rename_i hrole
  split at hout
  · exact Or.inl ⟨_, hout.symm⟩
  rename_i dropLoc hdl
  split at hout
  · exact Or.inl ⟨_, hout.symm⟩
  rename_i htrim
  split at hout
  · exact Or.inl ⟨_, hout.symm⟩
  rename_i peopleFedNum hpf
  split at hout
  · exact Or.inl ⟨_, hout.symm⟩
  rename_i hfed1
  split at hout
  · exact Or.inl ⟨_, hout.symm⟩
  rename_i w hwps
  split at hout
  · exact Or.inl ⟨_, hout.symm⟩
  rename_i hw1
  split at hout
  · exact Or.inl ⟨_, hout.symm⟩
  rename_i d hd
  split at hout
  · exact Or.inl ⟨_, hout.symm⟩
  rename_i hrecv
  split at hout
  · exact Or.inl ⟨_, hout.symm⟩
  rename_i hstat
  split at hout
  · exact Or.inl ⟨_, hout.symm⟩
  rename_i hany
  dsimp only at hout
  unfold insertReceipt at hout
  dsimp only at hout
  rw [if_neg hany] at hout
  exact Or.inr ⟨dropLoc, peopleFedNum, w, d, _, not_not.mp hrole, hdl, htrim,
    hpf, hfed1, hwps, hw1, hd, hrecv, hstat, hany, rfl, rfl, hout.symm⟩

/-- When all guards pass but a receipt for the donation already exists, the
handler reports a conflict and leaves the receipts unchanged. -/
theorem createReceiptOp_conflict (db : DB) (rs : List ImpactReceipt) (role : Role)
    (receiverId id : Nat) (req : ReceiptReq) (addr : Option String)
    (geocode : String → Option (Rat × Rat)) (dist : Rat → Rat → Rat → Rat → Rat)
    (dropLoc : String) (peopleFedNum w : Rat) (d : Donation)
    (hrole : role = Role.Receiver)
    (hdrop : req.dropLocation = some dropLoc) (htrim : ¬ jsTrim dropLoc = "")
    (hfed : req.peopleFed = some peopleFedNum) (hfed1 : ¬ peopleFedNum < 1)
    (hw : req.weightPerServing = some w) (hw1 : ¬ w < 1 / 1000)
    (hd : findById db id = some d)
    (hrecv : ¬ d.assignedReceiverId ≠ some receiverId)
    (hstat : ¬ d.status ≠ Status.delivered)
    (hany : rs.any (fun x => x.donationId = id) = true) :
    createReceiptOp db rs role receiverId id req addr geocode dist =
      (some ReceiptError.alreadyExists, rs) := by
  unfold createReceiptOp
  rw [hdrop, hfed, hw, hd]
  rw [if_neg (not_not.mpr hrole)]
  dsimp only
  rw [if_neg htrim, if_neg hfed1, if_neg hw1, if_neg hrecv, if_neg hstat,
    if_pos hany]

theorem uniqueDonationIds_append (rs : List ImpactReceipt) (r : ImpactReceipt)
    (hno : ¬ rs.any (fun x => x.donationId = r.donationId) = true)
    (hu : uniqueDonationIds rs) : uniqueDonationIds (rs ++ [r]) := by
  unfold uniqueDonationIds at hu ⊢
  rw [List.pairwise_append]
  refine ⟨hu, List.pairwise_singleton _ _, ?_⟩
  intro a ha b hb
  simp only [List.mem_singleton] at hb
  subst hb
  intro hcon
  exact hno (List.any_eq_true.mpr ⟨a, ha, by simp [hcon]⟩)

theorem insertReceipt_unique (rs : List ImpactReceipt) (r : ImpactReceipt)
    (hu : uniqueDonationIds rs) : uniqueDonationIds (insertReceipt rs r).2 := by
  unfold insertReceipt
  by_cases hA : rs.any (fun x => x.donationId = r.donationId) = true
  · rw [if_pos hA]
    exact hu
  · rw [if_neg hA]
    exact uniqueDonationIds_append rs r hA hu

theorem insertReceipt_not_both (rs : List ImpactReceipt) (r1 r2 : ImpactReceipt)
    (hsame : r1.donationId = r2.donationId) :
    ¬ ((insertReceipt rs r1).1 = true ∧
       (insertReceipt (insertReceipt rs r1).2 r2).1 = true) := by
  rintro ⟨h1, h2⟩
  by_cases hA : rs.any (fun x => x.donationId = r1.donationId) = true
  · rw [show insertReceipt rs r1 = (false, rs) from by
      unfold insertReceipt
      rw [if_pos hA]] at h1
    cases h1
  · have hfst : insertReceipt rs r1 = (true, rs ++ [r1]) := by
      unfold insertReceipt
      rw [if_neg hA]
    rw [hfst] at h2
    dsimp only at h2
    have hA2 : (rs ++ [r1]).any (fun x => x.donationId = r2.donationId) = true := by
      rw [List.any_append]
      simp [hsame]
    rw [show insertReceipt (rs ++ [r1]) r2 = (false, rs ++ [r1]) from by
      unfold insertReceipt
      rw [if_pos hA2]] at h2
    cases h2

/-- C6: every impact receipt persisted for a donation of quantity q with
receiver-submitted weight-per-serving w stores
methaneSaved = round(q · w · 0.05, 2) with round-half-up to two decimals
(`specMethaneSaved` is stated from the spec wording; the handler computes
`methaneSavedRounded`, and the two coincide over exact rationals). -/
theorem C6_methane (db : DB) (rs : List ImpactReceipt) (role : Role)
    (receiverId id : Nat) (req : ReceiptReq) (addr : Option String)
    (geocode : String → Option (Rat × Rat)) (dist : Rat → Rat → Rat → Rat → Rat)
    (w : Rat) (d : Donation)
    (hw : req.weightPerServing = some w)
    (hd : findById db id = some d)
    (hs : (createReceiptOp db rs role receiverId id req addr geocode dist).1 =
      none) :
    ∃ r, (createReceiptOp db rs role receiverId id req addr geocode dist).2 =
        rs ++ [r] ∧
      ImpactReceipt.methaneSaved r = specMethaneSaved d.quantity w := by
  rcases createReceiptOp_cases db rs role receiverId id req addr geocode dist _
      rfl with
    ⟨e, heq⟩ | ⟨dl, pf, w2, d2, r, _, _, _, _, _, hw2, _, hd2, _, _, _, _,
      hmeth, hsnd⟩
  · rw [heq] at hs
    exact absurd hs (Option.some_ne_none e)
  · rw [hw] at hw2
    injection hw2 with hww
    rw [hd] at hd2
    injection hd2 with hdd
    subst hww
    subst hdd
    refine ⟨r, by rw [hsnd], ?_⟩
    rw [hmeth]
    rfl

/-- Witness for `C6_methane`: quantity 15 and weight-per-serving 0.3 kg
give total weight 4.5 kg and methaneSaved 0.23 kg (round-half-up of
0.225). -/
theorem C6_methane_witness :
    (∃ r, (createReceiptOp [(0, deliveredDonation)] [] Role.Receiver 3 0
        receiptReqW none geoW havW).2 = [] ++ [r] ∧
      ImpactReceipt.methaneSaved r =
        specMethaneSaved deliveredDonation.quantity (3 / 10))
    ∧ specMethaneSaved 15 (3 / 10) = 23 / 100 := by
  have hnum : ¬ ((3 / 10 : Rat) < 1 / 1000) := by norm_num
  have hfed : ¬ ((5 : Rat) < 1) := by norm_num
  have htrim : ¬ (jsTrim "Community Hall" = "") := by decide
  have hs : (createReceiptOp [(0, deliveredDonation)] [] Role.Receiver 3 0
      receiptReqW none geoW havW).1 = none := by
    norm_num [createReceiptOp, receiptReqW, findById, deliveredDonation,
      sampleDonation, insertReceipt, htrim]
  refine ⟨C6_methane [(0, deliveredDonation)] [] Role.Receiver 3 0 receiptReqW
    none geoW havW (3 / 10) deliveredDonation rfl rfl hs, ?_⟩
  unfold specMethaneSaved
  norm_num

/-- C8: when a create-receipt request succeeds, exactly one receipt for the
donation is appended; an identical follow-up request is rejected as a
conflict with the store unchanged; and because the unique index on
donationId is enforced at the insert itself, two racing inserts for the
same donation can never both succeed and always leave the donation ids
unique. -/
theorem C8_one_receipt (db : DB) (rs : List ImpactReceipt) (role : Role)
    (receiverId id : Nat) (req : ReceiptReq) (addr : Option String)
    (geocode : String → Option (Rat × Rat)) (dist : Rat → Rat → Rat → Rat → Rat)
    (r1 r2 : ImpactReceipt) :
    ((createReceiptOp db rs role receiverId id req addr geocode dist).1 = none →
      ∃ r, ImpactReceipt.donationId r = id ∧
        (createReceiptOp db rs role receiverId id req addr geocode dist).2 =
          rs ++ [r] ∧
        createReceiptOp db (rs ++ [r]) role receiverId id req addr geocode dist =
          (some ReceiptError.alreadyExists, rs ++ [r]) ∧
        (uniqueDonationIds rs → uniqueDonationIds (rs ++ [r])))
    ∧ (r1.donationId = r2.donationId →
        ¬ ((insertReceipt rs r1).1 = true ∧
           (insertReceipt (insertReceipt rs r1).2 r2).1 = true))
    ∧ (uniqueDonationIds rs →
        uniqueDonationIds (insertReceipt (insertReceipt rs r1).2 r2).2) := by
  refine ⟨?_, insertReceipt_not_both rs r1 r2,
    fun hu => insertReceipt_unique _ _ (insertReceipt_unique _ _ hu)⟩
  intro hs
  rcases createReceiptOp_cases db rs role receiverId id req addr geocode dist _
      rfl with
    ⟨e, heq⟩ | ⟨dl, pf, w, d, r, hrole, hdrop, htrim, hfed, hfed1, hw, hw1, hd,
      hrecv, hstat, hany, hdon, _, hsnd⟩
  · rw [heq] at hs
    exact absurd hs (Option.some_ne_none e)
  · have hany2 : ¬ rs.any (fun x => x.donationId = r.donationId) = true := by
      rw [hdon]
      exact hany
    refine ⟨r, hdon, by rw [hsnd], ?_, uniqueDonationIds_append rs r hany2⟩
    refine createReceiptOp_conflict db (rs ++ [r]) role receiverId id req addr
      geocode dist dl pf w d hrole hdrop htrim hfed hfed1 hw hw1 hd hrecv
      hstat ?_
    rw [List.any_append]
    simp [hdon]

/-- Witness for `C8_one_receipt`: a concrete first receipt succeeds and the
repeat attempt conflicts. -/
theorem C8_one_receipt_witness :
    ∃ r, ImpactReceipt.donationId r = 0 ∧
      (createReceiptOp [(0, deliveredDonation)] [] Role.Receiver 3 0
        receiptReqW none geoW havW).2 = [] ++ [r] ∧
      createReceiptOp [(0, deliveredDonation)] ([] ++ [r]) Role.Receiver 3 0
        receiptReqW none geoW havW = (some ReceiptError.alreadyExists, [] ++ [r]) ∧
      (uniqueDonationIds [] → uniqueDonationIds ([] ++ [r])) := by
  have hnum : ¬ ((3 / 10 : Rat) < 1 / 1000) := by norm_num
  have hfed : ¬ ((5 : Rat) < 1) := by norm_num
  have htrim : ¬ (jsTrim "Community Hall" = "") := by decide
  have hs : (createReceiptOp [(0, deliveredDonation)] [] Role.Receiver 3 0
      receiptReqW none geoW havW).1 = none := by
    norm_num [createReceiptOp, receiptReqW, findById, deliveredDonation,
      sampleDonation, insertReceipt, htrim]
  exact (C8_one_receipt [(0, deliveredDonation)] [] Role.Receiver 3 0
    receiptReqW none geoW havW ⟨0, 0, "x", 0, 0, 0, 0⟩ ⟨0, 0, "x", 0, 0, 0, 0⟩).1
    hs

end FoodLoop
